import Mathlib

/-!
Shallow embedding of the article-workflow engine (`src/app`):
the `Phase` enum and `ArticleState` dataclass (`app/domain.py`),
the Firestore repository primitives (`app/storage/firestore.py`),
the time helpers (`app/utils/time.py`), the PubMed and WordPress
client logic (`app/integrations/pubmed.py`, `wordpress.py`),
and the workflow transition handlers (`app/services.py`).

Stored article records are Firestore documents: string-keyed maps of
JSON-ish values, modelled as association lists of `Val`.  ISO-8601
timestamps are abstracted to their integer time coordinate rendered as a
decimal string (parse failure models `datetime.fromisoformat` raising).
External backends (OpenAI, PubMed HTTP, Slack, WordPress HTTP) are
modelled by passing their responses as parameters, or for WordPress by a
small server state, so each handler is a pure function of the stored
record, the backend responses and the current time.
-/

namespace SeoWf

/-- The workflow phase enum from `app/domain.py` (`class Phase`). -/
inductive Phase where
  | OUTLINE_GENERATING
  | OUTLINE_REVIEW
  | OUTLINE_WAITING_FEEDBACK
  | OUTLINE_CONFIRMED
  | PAPER_SEARCHING
  | PAPER_REVIEW
  | PAPER_WAITING_FEEDBACK
  | PAPER_CONFIRMED
  | BODY_GENERATING
  | BODY_REVIEW
  | BODY_WAITING_FEEDBACK
  | FINAL_REVIEW
  | READY_TO_PUBLISH
  | PUBLISHING
  | PUBLISHED
  | DISCARDED
  | ERROR
  deriving DecidableEq, Repr

/-- `Phase.value`: the string stored for each enum member. -/
def Phase.value : Phase → String
  | .OUTLINE_GENERATING => "OUTLINE_GENERATING"
  | .OUTLINE_REVIEW => "OUTLINE_REVIEW"
  | .OUTLINE_WAITING_FEEDBACK => "OUTLINE_WAITING_FEEDBACK"
  | .OUTLINE_CONFIRMED => "OUTLINE_CONFIRMED"
  | .PAPER_SEARCHING => "PAPER_SEARCHING"
  | .PAPER_REVIEW => "PAPER_REVIEW"
  | .PAPER_WAITING_FEEDBACK => "PAPER_WAITING_FEEDBACK"
  | .PAPER_CONFIRMED => "PAPER_CONFIRMED"
  | .BODY_GENERATING => "BODY_GENERATING"
  | .BODY_REVIEW => "BODY_REVIEW"
  | .BODY_WAITING_FEEDBACK => "BODY_WAITING_FEEDBACK"
  | .FINAL_REVIEW => "FINAL_REVIEW"
  | .READY_TO_PUBLISH => "READY_TO_PUBLISH"
  | .PUBLISHING => "PUBLISHING"
  | .PUBLISHED => "PUBLISHED"
  | .DISCARDED => "DISCARDED"
  | .ERROR => "ERROR"

/-- All members of the `Phase` enum, in declaration order. -/
def Phase.members : List Phase :=
  [.OUTLINE_GENERATING, .OUTLINE_REVIEW, .OUTLINE_WAITING_FEEDBACK, .OUTLINE_CONFIRMED,
   .PAPER_SEARCHING, .PAPER_REVIEW, .PAPER_WAITING_FEEDBACK, .PAPER_CONFIRMED,
   .BODY_GENERATING, .BODY_REVIEW, .BODY_WAITING_FEEDBACK,
   .FINAL_REVIEW, .READY_TO_PUBLISH, .PUBLISHING, .PUBLISHED, .DISCARDED, .ERROR]

/-- `Phase(s)` value lookup: `some p` when `s` is a member value, else `none`
(Python raises `ValueError` in the `none` case). -/
def Phase.fromString (s : String) : Option Phase :=
  Phase.members.find? (fun p => p.value == s)

/-! Python string primitives, implemented by structural recursion on the
character list (so that concrete instances evaluate inside the kernel). -/

/-- Python `str.strip()`. -/
def pyStrip (s : String) : String :=
  String.mk (((s.data.dropWhile Char.isWhitespace).reverse.dropWhile Char.isWhitespace).reverse)

/-- Decimal digit accumulation; `none` on the first non-digit. -/
def parseDigitsAux (acc : Nat) : List Char → Option Nat
  | [] => some acc
  | c :: cs => if c.isDigit then parseDigitsAux (acc * 10 + (c.toNat - '0'.toNat)) cs
               else Option.none

/-- Parse a decimal integer with optional leading minus (`int(s)` /
`toInt?` on the strings this app stores). -/
def parseInt? (s : String) : Option Int :=
  match s.data with
  | [] => Option.none
  | '-' :: rest =>
      (match rest with
       | [] => Option.none
       | _ => (parseDigitsAux 0 rest).map (fun n => -(n : Int)))
  | _ => (parseDigitsAux 0 s.data).map (fun n => (n : Int))

/-- Python `s.split(sep)` on the character list. -/
def splitChar (sep : Char) : List Char → List (List Char)
  | [] => [[]]
  | c :: cs =>
      if c == sep then [] :: splitChar sep cs
      else match splitChar sep cs with
           | [] => [[c]]
           | g :: gs => (c :: g) :: gs

/-- Python `s.split(sep)` for a one-character separator. -/
def pySplitChar (s : String) (sep : Char) : List String :=
  (splitChar sep s.data).map String.mk

/-- Python `"\n".join(parts)`. -/
def joinNL : List String → String
  | [] => ""
  | [s] => s
  | s :: rest => s ++ "\n" ++ joinNL rest

/-- Python `c in s` for a single character. -/
def strHasChar (s : String) (c : Char) : Bool :=
  s.data.any (fun x => x == c)

/-- `s.replace("-", "")`. -/
def dropDashes (s : String) : String :=
  String.mk (s.data.filter (fun c => c != '-'))

/-- Exceptions crossing the handlers, classified as in `app/utils/errors.py`
plus the builtin Python exception kinds the code can raise. -/
inductive PyErr where
  | typeError (msg : String)
  | attributeError (msg : String)
  | valueError (msg : String)
  | keyError (msg : String)
  | appError (code msg : String)
  | externalApi (code msg : String)
  | slackApiError (msg : String)
  | pubmedNoResults (msg : String)
  | pubmedTooMany (msg : String)
  | openaiError (msg : String)
  | wordpressError (msg : String)
  deriving DecidableEq, Repr

instance {ε α : Type} [DecidableEq ε] [DecidableEq α] : DecidableEq (Except ε α) := fun x y =>
  match x, y with
  | .ok a, .ok b =>
      if h : a = b then .isTrue (by subst h; rfl)
      else .isFalse (fun hc => by cases hc; exact h rfl)
  | .ok _, .error _ => .isFalse (fun hc => by cases hc)
  | .error _, .ok _ => .isFalse (fun hc => by cases hc)
  | .error e, .error f =>
      if h : e = f then .isTrue (by subst h; rfl)
      else .isFalse (fun hc => by cases hc; exact h rfl)

/-- A string-valued JSON object (PubMed paper dicts, sheet snapshots). -/
abbrev SDict := List (String × String)

/-- A stored Firestore field value (the JSON shapes this app writes). -/
inductive Val where
  | none
  | str (s : String)
  | int (n : Int)
  | dict (d : SDict)
  | dictList (ds : List SDict)
  | strList (ss : List String)
  deriving DecidableEq, Repr

/-- A stored article document: association list, first binding wins. -/
abbrev Doc := List (String × Val)

/-- Python truthiness of a stored value. -/
def Val.falsy : Val → Bool
  | .none => true
  | .str s => s == ""
  | .int n => n == 0
  | .dict d => d.isEmpty
  | .dictList ds => ds.isEmpty
  | .strList ss => ss.isEmpty

/-- Python `str()` of a stored value (container renderings are abstract;
the record fields this is applied to only ever hold strings or ints). -/
def Val.pyStr : Val → String
  | .none => "None"
  | .str s => s
  | .int n => toString n
  | .dict _ => "<dict>"
  | .dictList _ => "<list>"
  | .strList _ => "<list>"

/-- `d.get(k)` on the document, `none` when the key is absent. -/
def lookupVal (d : Doc) (k : String) : Option Val :=
  (List.find? (fun p => p.1 == k) d).map (fun p => p.2)

/-- `d.get(k)` collapsed to a `Val` (`None` when absent). -/
def getVal (d : Doc) (k : String) : Val :=
  match lookupVal d k with
  | some v => v
  | Option.none => Val.none

/-- `str(v or "")`. -/
def asStrOrEmpty (v : Val) : String :=
  if v.falsy then "" else v.pyStr

/-- `_opt_str` from `app/domain.py`: `None` stays `None`, otherwise
`str(v).strip()`, with the empty string collapsed to `None`. -/
def optStr (v : Val) : Option String :=
  match v with
  | .none => Option.none
  | w => let s := pyStrip w.pyStr
         if s == "" then Option.none else some s

/-- `_opt_int` from `app/domain.py`: `int(v)` with failures giving `None`. -/
def optInt (v : Val) : Option Int :=
  match v with
  | .none => Option.none
  | .int n => some n
  | .str s => parseInt? s
  | _ => Option.none

/-- `int(v or 0)`: falsy values give `0`; a non-numeric string or a
container raises. -/
def intOr0 (v : Val) : Except PyErr Int :=
  if v.falsy then .ok 0
  else match v with
    | .int n => .ok n
    | .str s =>
        match parseInt? s with
        | some n => .ok n
        | Option.none => .error (.valueError ("invalid literal for int(): " ++ s))
    | _ => .error (.typeError "int() argument must be a string or a number")

/-- `dict(v or \x7b\x7d)` for the sheet snapshot field. -/
def asDict (v : Val) : Except PyErr SDict :=
  if v.falsy then .ok []
  else match v with
    | .dict d => .ok d
    | _ => .error (.typeError "cannot convert to dict")

/-- `list(v or [])` for the stored candidate list. -/
def asDictList (v : Val) : Except PyErr (List SDict) :=
  if v.falsy then .ok []
  else match v with
    | .dictList ds => .ok ds
    | _ => .error (.typeError "cannot convert to list")

/-- `list(v or [])` for the stored category/tag name lists. -/
def asStrList (v : Val) : Except PyErr (List String) :=
  if v.falsy then .ok []
  else match v with
    | .strList ss => .ok ss
    | _ => .error (.typeError "cannot convert to list")

/-- The `ArticleState` dataclass from `app/domain.py` (same fields, same
order; note there is no `selected_paper` field). -/
structure ArticleState where
  article_id : String
  keyword : String
  planned_date : String
  sheet_snapshot : SDict
  phase : Phase
  slack_channel_id : String
  slack_last_message_ts : Option String
  slack_revision_thread_ts : Option String
  outline_text : Option String
  outline_feedback_text : Option String
  outline_revision_count : Int
  pubmed_query : Option String
  paper_candidates : List SDict
  selected_pmid : Option String
  paper_feedback_text : Option String
  paper_revision_count : Int
  body_text : Option String
  body_feedback_text : Option String
  body_revision_count : Int
  wp_post_id : Option Int
  wp_post_url : Option String
  wp_title : Option String
  wp_slug : Option String
  wp_categories : List String
  wp_tags : List String
  error_prev_phase : Option String
  error_type : Option String
  error_message : Option String
  error_user_message : Option String
  error_occurred_at : Option String
  retry_available_until : Option String
  created_at : Option String
  updated_at : Option String
  phase_updated_at : Option String
  deriving DecidableEq, Repr

/-- The phase decode in `ArticleState.from_dict`:
`phase_raw = str(d.get("phase") or "").strip()` then
`Phase(phase_raw) if phase_raw else Phase.ERROR`; `Phase(...)` raises
`ValueError` on a non-member string. -/
def decodePhase (d : Doc) : Except PyErr Phase :=
  let raw := pyStrip (asStrOrEmpty (getVal d "phase"))
  if raw == "" then .ok Phase.ERROR
  else match Phase.fromString raw with
    | some p => .ok p
    | Option.none => .error (.valueError (raw ++ " is not a valid Phase"))

/-- `ArticleState.from_dict` from `app/domain.py`. -/
def from_dict (d : Doc) : Except PyErr ArticleState :=
  match decodePhase d with
  | .error e => .error e
  | .ok ph =>
  match asDict (getVal d "sheet_snapshot") with
  | .error e => .error e
  | .ok snap =>
  match intOr0 (getVal d "outline_revision_count") with
  | .error e => .error e
  | .ok orc =>
  match asDictList (getVal d "paper_candidates") with
  | .error e => .error e
  | .ok cands =>
  match intOr0 (getVal d "paper_revision_count") with
  | .error e => .error e
  | .ok prc =>
  match intOr0 (getVal d "body_revision_count") with
  | .error e => .error e
  | .ok brc =>
  match asStrList (getVal d "wp_categories") with
  | .error e => .error e
  | .ok wcats =>
  match asStrList (getVal d "wp_tags") with
  | .error e => .error e
  | .ok wtags =>
    .ok {
      article_id := asStrOrEmpty (getVal d "article_id")
      keyword := asStrOrEmpty (getVal d "keyword")
      planned_date := asStrOrEmpty (getVal d "planned_date")
      sheet_snapshot := snap
      phase := ph
      slack_channel_id := asStrOrEmpty (getVal d "slack_channel_id")
      slack_last_message_ts := optStr (getVal d "slack_last_message_ts")
      slack_revision_thread_ts := optStr (getVal d "slack_revision_thread_ts")
      outline_text := optStr (getVal d "outline_text")
      outline_feedback_text := optStr (getVal d "outline_feedback_text")
      outline_revision_count := orc
      pubmed_query := optStr (getVal d "pubmed_query")
      paper_candidates := cands
      selected_pmid := optStr (getVal d "selected_pmid")
      paper_feedback_text := optStr (getVal d "paper_feedback_text")
      paper_revision_count := prc
      body_text := optStr (getVal d "body_text")
      body_feedback_text := optStr (getVal d "body_feedback_text")
      body_revision_count := brc
      wp_post_id := optInt (getVal d "wp_post_id")
      wp_post_url := optStr (getVal d "wp_post_url")
      wp_title := optStr (getVal d "wp_title")
      wp_slug := optStr (getVal d "wp_slug")
      wp_categories := wcats
      wp_tags := wtags
      error_prev_phase := optStr (getVal d "error_prev_phase")
      error_type := optStr (getVal d "error_type")
      error_message := optStr (getVal d "error_message")
      error_user_message := optStr (getVal d "error_user_message")
      error_occurred_at := optStr (getVal d "error_occurred_at")
      retry_available_until := optStr (getVal d "retry_available_until")
      created_at := optStr (getVal d "created_at")
      updated_at := optStr (getVal d "updated_at")
      phase_updated_at := optStr (getVal d "phase_updated_at") }

/-- Render an optional string field back into a stored value. -/
def optVal : Option String → Val
  | some s => .str s
  | Option.none => .none

/-- Render an optional int field back into a stored value. -/
def optIntVal : Option Int → Val
  | some n => .int n
  | Option.none => .none

/-- `ArticleState.to_dict` from `app/domain.py`. -/
def to_dict (st : ArticleState) : Doc :=
  [("article_id", .str st.article_id),
   ("keyword", .str st.keyword),
   ("planned_date", .str st.planned_date),
   ("sheet_snapshot", .dict st.sheet_snapshot),
   ("phase", .str st.phase.value),
   ("slack_channel_id", .str st.slack_channel_id),
   ("slack_last_message_ts", optVal st.slack_last_message_ts),
   ("slack_revision_thread_ts", optVal st.slack_revision_thread_ts),
   ("outline_text", optVal st.outline_text),
   ("outline_feedback_text", optVal st.outline_feedback_text),
   ("outline_revision_count", .int st.outline_revision_count),
   ("pubmed_query", optVal st.pubmed_query),
   ("paper_candidates", .dictList st.paper_candidates),
   ("selected_pmid", optVal st.selected_pmid),
   ("paper_feedback_text", optVal st.paper_feedback_text),
   ("paper_revision_count", .int st.paper_revision_count),
   ("body_text", optVal st.body_text),
   ("body_feedback_text", optVal st.body_feedback_text),
   ("body_revision_count", .int st.body_revision_count),
   ("wp_post_id", optIntVal st.wp_post_id),
   ("wp_post_url", optVal st.wp_post_url),
   ("wp_title", optVal st.wp_title),
   ("wp_slug", optVal st.wp_slug),
   ("wp_categories", .strList st.wp_categories),
   ("wp_tags", .strList st.wp_tags),
   ("error_prev_phase", optVal st.error_prev_phase),
   ("error_type", optVal st.error_type),
   ("error_message", optVal st.error_message),
   ("error_user_message", optVal st.error_user_message),
   ("error_occurred_at", optVal st.error_occurred_at),
   ("retry_available_until", optVal st.retry_available_until),
   ("created_at", optVal st.created_at),
   ("updated_at", optVal st.updated_at),
   ("phase_updated_at", optVal st.phase_updated_at)]

/-! Time helpers from `app/utils/time.py`.  A wall-clock instant is an
integer; the ISO string for it is its decimal rendering. -/

/-- `now_jst_iso()` at abstract instant `now`. -/
def now_jst_iso (now : Int) : String := toString now

/-- `add_days_jst_iso(days)` at abstract instant `now` (day granularity
is irrelevant to the properties, so a day advances the coordinate by 1). -/
def add_days_jst_iso (now days : Int) : String := toString (now + days)

/-- `is_expired(until_iso)` at abstract instant `now`: unparseable
timestamps count as expired (the `except` branch), otherwise strictly
after the deadline. -/
def is_expired (until_iso : String) (now : Int) : Bool :=
  match parseInt? until_iso with
  | some t => decide (t < now)
  | Option.none => true

/-- Left-pad with zeros (`str.zfill` / the `:03d` format). -/
def zfill (s : String) (w : Nat) : String :=
  if w ≤ s.length then s
  else String.mk (List.replicate (w - s.length) '0') ++ s

/-- `normalize_ymd` from `app/utils/time.py`. -/
def normalize_ymd (s0 : String) : String :=
  let s := pyStrip s0
  if strHasChar s '/' ∧ 10 ≤ s.length then
    match pySplitChar s '/' with
    | y :: m :: d :: _ => zfill y 4 ++ "-" ++ zfill m 2 ++ "-" ++ zfill d 2
    | _ => s
  else s

/-- `generate_article_id(*, planned_date: str, seq: int)` from
`app/utils/time.py`. -/
def generate_article_id (planned_date : String) (seq : Int) : String :=
  let ymd := dropDashes (normalize_ymd planned_date)
  let n := max 1 seq
  "ART-" ++ ymd ++ "-" ++ zfill (toString n) 3

/-- Python call semantics for `generate_article_id`, whose parameters are
keyword-only `planned_date` and `seq`: binding the supplied keyword
arguments raises `TypeError` on an unexpected name or a missing required
name. -/
def generate_article_id_kwargs (kwargs : List (String × Val)) : Except PyErr String :=
  if kwargs.any (fun kv => kv.1 != "planned_date" && kv.1 != "seq") then
    .error (.typeError "generate_article_id() got an unexpected keyword argument")
  else
    match lookupVal kwargs "planned_date", lookupVal kwargs "seq" with
    | some (.str pd), some (.int n) => .ok (generate_article_id pd n)
    | _, _ => .error (.typeError "generate_article_id() missing a required keyword-only argument")

/-! The record store (`app/storage/firestore.py`).  The repository is the
one article's document; a patch entry either sets a field or deletes it
(`firestore.DELETE_FIELD`), applied with `set(..., merge=True)`. -/

/-- A patch entry: set to a value, or delete the field. -/
inductive PVal where
  | val (v : Val)
  | del
  deriving DecidableEq, Repr

/-- A merge patch (later entries win, as with `dict` assignment). -/
abbrev PPatch := List (String × PVal)

/-- Set one field. -/
def setKey (d : Doc) (k : String) (v : Val) : Doc := (k, v) :: d

/-- Delete one field. -/
def eraseKey (d : Doc) (k : String) : Doc :=
  d.filter (fun p => p.1 != k)

/-- `ref.set(patch, merge=True)`. -/
def applyPatch (d : Doc) (ps : PPatch) : Doc :=
  ps.foldl (fun acc kv =>
    match kv.2 with
    | .val v => setKey acc kv.1 v
    | .del => eraseKey acc kv.1) d

/-- The winning (last) entry of a patch for a key, if any. -/
def patchFind : PPatch → String → Option PVal
  | [], _ => Option.none
  | kv :: ps, k =>
      match patchFind ps k with
      | some x => some x
      | Option.none => if kv.1 == k then some kv.2 else Option.none

/-- `FirestoreRepo.update_article_fields` (document part): copies the
updates, stamps `updated_at`, and sets `phase` + `phase_updated_at` only
when the phase actually changes (under the default
`phase_update_only_when_changed=True`). -/
def update_article_fields (doc : Doc) (updates : List (String × Val))
    (set_phase : Option Phase) (onlyWhenChanged : Bool) (now : Int) : Doc :=
  let patch : PPatch :=
    (updates.map (fun kv => (kv.1, PVal.val kv.2))) ++
      [("updated_at", .val (.str (now_jst_iso now)))]
  let patch :=
    match set_phase with
    | Option.none => patch
    | some p =>
        let cur := asStrOrEmpty (getVal doc "phase")
        if !onlyWhenChanged || cur != p.value then
          patch ++ [("phase", .val (.str p.value)),
                    ("phase_updated_at", .val (.str (now_jst_iso now)))]
        else patch
  applyPatch doc patch

/-- `FirestoreRepo.clear_error`: deletes the six error/retry fields and
stamps `updated_at`. -/
def clear_error (doc : Doc) (now : Int) : Doc :=
  applyPatch doc
    [("error_prev_phase", .del),
     ("error_type", .del),
     ("error_message", .del),
     ("error_user_message", .del),
     ("error_occurred_at", .del),
     ("retry_available_until", .del),
     ("updated_at", .val (.str (now_jst_iso now)))]

/-- `FirestoreRepo.create_article`: writes `to_dict` with all three
timestamps set to the same `now`. -/
def create_article (st : ArticleState) (now : Int) : Doc :=
  applyPatch (to_dict st)
    [("created_at", .val (.str (now_jst_iso now))),
     ("updated_at", .val (.str (now_jst_iso now))),
     ("phase_updated_at", .val (.str (now_jst_iso now)))]

/-! The PubMed client (`app/integrations/pubmed.py`).  The HTTP layer is
abstracted: the esearch response is its parsed id list and count, the
efetch response is the per-article text pieces pulled from the XML. -/

/-- The `PubMedPaper` dataclass. -/
structure PubMedPaper where
  pmid : String
  title : String
  abstract : String
  url : String
  deriving DecidableEq, Repr

/-- `PubMedPaper.to_dict`. -/
def PubMedPaper.to_dict (p : PubMedPaper) : SDict :=
  [("pmid", p.pmid), ("title", p.title), ("abstract", p.abstract), ("url", p.url)]

/-- One `PubmedArticle` element of the efetch XML: the `findtext` results
for PMID and title, and the texts of the `AbstractText` elements. -/
structure RawArticle where
  pmidText : Option String
  titleText : Option String
  absTexts : List (Option String)
  deriving DecidableEq, Repr

/-- The parsing loop of `PubMedClient._efetch_abstracts`: articles with an
empty PMID are skipped and abstract parts are kept only when truthy. -/
def efetchPapers (raws : List RawArticle) : List PubMedPaper :=
  raws.foldr (fun a acc =>
    let pmid := pyStrip (a.pmidText.getD "")
    let title := pyStrip (a.titleText.getD "")
    let absParts := a.absTexts.filterMap (fun t =>
      match t with
      | some s => if s == "" then Option.none else some (pyStrip s)
      | Option.none => Option.none)
    let abstract := pyStrip (joinNL absParts)
    if pmid == "" then acc
    else { pmid := pmid, title := title, abstract := abstract,
           url := "https://pubmed.ncbi.nlm.nih.gov/" ++ pmid ++ "/" } :: acc) []

/-- `PubMedClient._efetch_abstracts`: an empty parse result raises
`PubMedNoResultsError`. -/
def efetch_abstracts (raws : List RawArticle) : Except PyErr (List PubMedPaper) :=
  if (efetchPapers raws).isEmpty then
    .error (.pubmedNoResults "PubMed efetch returned empty articles")
  else .ok (efetchPapers raws)

/-- `PubMedClient.fetch_top_abstracts`: empty query is rejected, a count
over 10,000 raises TooManyResults, an empty id list raises NoResults,
otherwise the fetched papers truncated to `retmax`. -/
def fetch_top_abstracts (query : String) (retmax : Nat)
    (ids : List String) (count : Option Int) (raws : List RawArticle) :
    Except PyErr (List PubMedPaper) :=
  let q := pyStrip query
  if q == "" then .error (.externalApi "InvalidQuery" "PubMed query is empty")
  else if (match count with | some c => decide (10000 < c) | Option.none => false) then
    .error (.pubmedTooMany "PubMed result count exceeded 10,000")
  else if ids.isEmpty then .error (.pubmedNoResults "PubMed returned no results")
  else
    match efetch_abstracts raws with
    | .error e => .error e
    | .ok papers => .ok (papers.take retmax)

/-! Substring containment (Python's `in` operator on strings). -/

/-- Whether `pat` is a prefix of `s` (on character lists). -/
def listHasPre : List Char → List Char → Bool
  | [], _ => true
  | _ :: _, [] => false
  | p :: ps, c :: cs => p == c && listHasPre ps cs

/-- Whether `pat` occurs inside `s` (on character lists). -/
def listInf : List Char → List Char → Bool
  | pat, [] => listHasPre pat []
  | pat, c :: cs => listHasPre pat (c :: cs) || listInf pat cs

/-- Python `pat in s` for strings. -/
def strContains (s pat : String) : Bool := listInf pat.data s.data

/-! The WordPress client (`app/integrations/wordpress.py`).  The REST
server is a small state: published posts, category and tag term stores,
and the id counters the server assigns from.  The REST `search` query
parameter is modelled as content/name containment. -/

/-- A published post as the client sees it (`id`, `link`,
`content.rendered`). -/
structure WpPost where
  id : Int
  link : String
  content : String
  deriving DecidableEq, Repr

/-- The WordPress server state. -/
structure WpSite where
  posts : List WpPost
  cats : List (Int × String)
  tagTerms : List (Int × String)
  nextTermId : Int
  nextPostId : Int
  deriving DecidableEq, Repr

/-- The durable marker comment embedded by `publish_post`. -/
def wpMarker (article_id : String) : String :=
  "<!-- SEO_WORKFLOW_ARTICLE_ID=" ++ article_id ++ " -->"

/-- The `search` text used by `find_existing_by_article_id` (also the
string it scans `content.rendered` for). -/
def wpSearchText (article_id : String) : String :=
  "SEO_WORKFLOW_ARTICLE_ID=" ++ article_id

/-- `WordPressClient.find_existing_by_article_id`: REST search with
`per_page=20`, then scan the returned items for the marker text. -/
def find_existing_by_article_id (site : WpSite) (article_id : String) : Option WpPost :=
  let aid := pyStrip article_id
  if aid == "" then Option.none
  else
    let items := (site.posts.filter (fun p => strContains p.content (wpSearchText aid))).take 20
    items.find? (fun p => strContains p.content (wpSearchText aid))

/-- `WordPressClient._ensure_term` over one term store: REST search by
name (modelled as name containment, `per_page=100`), exact-name match
adopts the existing id, otherwise the term is created. -/
def ensure_term (terms : List (Int × String)) (nextTermId : Int) (name : String) :
    List (Int × String) × Int × Option Int :=
  let nm := pyStrip name
  if nm == "" then (terms, nextTermId, Option.none)
  else
    let found := (terms.filter (fun t => strContains t.2 nm)).take 100
    match found.find? (fun t => pyStrip t.2 == nm) with
    | some t => (terms, nextTermId, some t.1)
    | Option.none => (terms ++ [(nextTermId, nm)], nextTermId + 1, some nextTermId)

/-- Fold `ensure_term` over a list of names, collecting the ids that came
back non-`None`. -/
def ensure_term_list (terms : List (Int × String)) (nextTermId : Int)
    (names : List String) : List (Int × String) × Int × List Int :=
  names.foldl (fun acc nm =>
    let r := ensure_term acc.1 acc.2.1 nm
    (r.1, r.2.1, acc.2.2 ++ (match r.2.2 with | some i => [i] | Option.none => [])))
    (terms, nextTermId, [])

/-- `WordPressClient.ensure_terms`: categories then tags. -/
def ensure_terms (site : WpSite) (categories tagNames : List String) :
    WpSite × List Int × List Int :=
  let rc := ensure_term_list site.cats site.nextTermId categories
  let rt := ensure_term_list site.tagTerms rc.2.1 tagNames
  ({ site with cats := rc.1, tagTerms := rt.1, nextTermId := rt.2.1 }, rc.2.2, rt.2.2)

/-- `WordPressClient.publish_post`: the marker comment is appended to the
content, the server assigns the next post id and a permalink; the client
rejects a response with a zero id or empty link. -/
def publish_post (site : WpSite) (content : String) (article_id : String) :
    WpSite × Except PyErr (Int × String) :=
  let cwm := pyStrip content ++ "\n\n" ++ wpMarker article_id ++ "\n"
  let pid := site.nextPostId
  let link := "https://wp.example/?p=" ++ toString pid
  let site' := { site with posts := site.posts ++ [{ id := pid, link := link, content := cwm }],
                           nextPostId := pid + 1 }
  if pid == 0 || link == "" then (site', .error (.wordpressError "publish returned invalid response"))
  else (site', .ok (pid, link))

/-! The workflow engine (`app/services.py`).  Each handler is a pure
function of the stored document, the relevant backend responses and the
abstract current instant; it returns the updated document, the chat
messages posted, and the background units of work spawned with
`asyncio.create_task`. -/

/-- One Slack `post_message` call (blocks are UI plumbing, out of scope). -/
structure SlackPost where
  channel : String
  text : String
  thread_ts : Option String
  deriving DecidableEq, Repr

/-- A background unit of work spawned by a handler. -/
inductive Work where
  | genOutline
  | searchPapers
  | genBody
  | publishArticle
  deriving DecidableEq, Repr

/-- The observable outcome of one handler run. -/
structure StepResult where
  doc : Doc
  posts : List SlackPost
  spawned : List Work
  deriving DecidableEq, Repr

/-- The fixed user-facing error message of `Services._to_error_fields`. -/
def errorUserMessage : String := "エラーが発生しました。"

/-- `Services._to_error_fields`: classify an exception into
`(error_type, error_message, error_user_message)`, following the
`isinstance` chain. -/
def toErrorFields (e : PyErr) : String × String × String :=
  match e with
  | .pubmedTooMany m => ("PubMedTooManyResults", m, errorUserMessage)
  | .pubmedNoResults m => ("PubMedNoResults", m, errorUserMessage)
  | .slackApiError m => ("SlackApiError", m, errorUserMessage)
  | .openaiError m => ("OpenAIError", m, errorUserMessage)
  | .wordpressError m => ("WordPressError", m, errorUserMessage)
  | .externalApi c m => (if c == "" then "ExternalApiError" else c, m, errorUserMessage)
  | .appError c m => (if c == "" then "AppError" else c, m, errorUserMessage)
  | .typeError m => ("UnknownError", m, errorUserMessage)
  | .attributeError m => ("UnknownError", m, errorUserMessage)
  | .valueError m => ("UnknownError", m, errorUserMessage)
  | .keyError m => ("UnknownError", m, errorUserMessage)

/-- The error-field patch written by `Services._handle_error`. -/
def errorPatch (prev : Phase) (e : PyErr) (now : Int) : List (String × Val) :=
  [("error_prev_phase", .str prev.value),
   ("error_type", .str (toErrorFields e).1),
   ("error_message", .str (toErrorFields e).2.1),
   ("error_user_message", .str (toErrorFields e).2.2),
   ("error_occurred_at", .str (now_jst_iso now)),
   ("retry_available_until", .str (add_days_jst_iso now 7)),
   ("slack_revision_thread_ts", Val.none)]

/-- The write-and-notify step of `Services._handle_error`, after the
best-effort reload succeeded with `st`. -/
def handleErrorWrite (doc : Doc) (st : ArticleState) (prev : Phase) (e : PyErr) (now : Int) :
    StepResult :=
  let d1 := update_article_fields doc (errorPatch prev e now) (some .ERROR) true now
  let ch := match from_dict d1 with
            | .ok st1 => st1.slack_channel_id
            | .error _ => st.slack_channel_id
  { doc := d1, posts := [⟨ch, (toErrorFields e).2.2, Option.none⟩], spawned := [] }

/-- `Services._handle_error`: best-effort reload, record the error fields
with prev phase and a 7-day retry window, force phase to `ERROR`, then
post the fixed user message with a retry affordance.  When the reload
fails, nothing is written and the configured default channel is used. -/
def handleError (cfgChannel : String) (doc : Doc) (prev : Phase) (e : PyErr) (now : Int) :
    StepResult :=
  match from_dict doc with
  | .ok st => handleErrorWrite doc st prev e now
  | .error _ =>
      { doc := doc, posts := [⟨cfgChannel, (toErrorFields e).2.2, Option.none⟩], spawned := [] }

/-- The `try`/`except` boundary of a transition handler: a raised
exception is routed to `Services._handle_error` with the handler's
`prev_phase` and the repository document at the time it raised. -/
def runStep (cfgChannel : String) (prev : Phase) (now : Int)
    (body : Except (Doc × PyErr) StepResult) : StepResult :=
  match body with
  | .ok r => r
  | .error de => handleError cfgChannel de.1 prev de.2 now

/-- `str(c.get(k) or "")` on a paper dict. -/
def dictGetStr (c : SDict) (k : String) : String :=
  match List.find? (fun kv => kv.1 == k) c with
  | some kv => kv.2
  | Option.none => ""

/-- `Services._find_selected_candidate`. -/
def findSelectedCandidate (candidates : List SDict) (pmid : Option String) : Option SDict :=
  match pmid with
  | Option.none => Option.none
  | some p =>
      if p == "" then Option.none
      else candidates.find? (fun c => pyStrip (dictGetStr c "pmid") == p)

/-- `Services.select_paper`: look up the candidate by PMID (raising
`PaperNotFound` when absent), store the selection, advance to
`BODY_GENERATING`, post, and spawn body generation. -/
def select_paperBody (doc : Doc) (st : ArticleState) (pmid : String) (now : Int) :
    Except (Doc × PyErr) StepResult :=
      match findSelectedCandidate st.paper_candidates (some pmid) with
      | Option.none =>
          .error (doc, .externalApi "PaperNotFound" ("pmid not found in candidates: " ++ pmid))
      | some sel =>
          let d1 := update_article_fields doc
            [("selected_pmid", .str pmid),
             ("selected_paper", .dict sel),
             ("slack_revision_thread_ts", Val.none)]
            (some .BODY_GENERATING) true now
          match from_dict d1 with
          | .error e => .error (d1, e)
          | .ok st1 =>
              .ok { doc := d1,
                    posts := [⟨st1.slack_channel_id,
                               "論文を選択しました（PMID=" ++ pmid ++ "）。本文を生成します。",
                               Option.none⟩],
                    spawned := [.genBody] }

/-- `Services.select_paper`: look up the candidate by PMID (raising
`PaperNotFound` when absent), store the selection, advance to
`BODY_GENERATING`, post, and spawn body generation. -/
def select_paper (doc : Doc) (pmid : String) (now : Int) (cfgChannel : String) : StepResult :=
  runStep cfgChannel .PAPER_REVIEW now (
    match from_dict doc with
    | .error e => .error (doc, e)
    | .ok st => select_paperBody doc st pmid now)

/-- `Services.generate_body` given the OpenAI `generate_body` response.
The first statement of the body reads `state.selected_paper`, an
attribute the `ArticleState` dataclass does not define, so Python raises
`AttributeError` there; the remainder mirrors the source but is
unreachable. -/
def generate_bodyBody (doc : Doc) (st : ArticleState) (bodyRes : Except PyErr String)
    (now : Int) : Except (Doc × PyErr) StepResult :=
      match (Except.error
        (PyErr.attributeError "ArticleState object has no attribute selected_paper") :
        Except PyErr SDict) with
      | .error e => .error (doc, e)
      | .ok sel0 =>
        let sel := if sel0.isEmpty then findSelectedCandidate st.paper_candidates st.selected_pmid
                   else some sel0
        match sel with
        | Option.none => .error (doc, .externalApi "NoSelectedPaper" "selected paper missing")
        | some _ =>
          match bodyRes with
          | .error e => .error (doc, e)
          | .ok body =>
            let d1 := update_article_fields doc
              [("body_text", .str body),
               ("body_feedback_text", Val.none),
               ("slack_revision_thread_ts", Val.none)]
              (some .BODY_REVIEW) true now
            match from_dict d1 with
            | .error e => .error (d1, e)
            | .ok st1 =>
                .ok { doc := d1,
                      posts := [⟨st1.slack_channel_id,
                                 "本文を作成しました。承認または修正指示をお願いします。", Option.none⟩],
                      spawned := [] }

/-- `Services.generate_body` given the OpenAI `generate_body` response
(see `generate_bodyBody` for the `selected_paper` attribute error). -/
def generate_body (doc : Doc) (bodyRes : Except PyErr String) (now : Int)
    (cfgChannel : String) : StepResult :=
  runStep cfgChannel .BODY_GENERATING now (
    match from_dict doc with
    | .error e => .error (doc, e)
    | .ok st => generate_bodyBody doc st bodyRes now)

/-- The work spawned after a successful retry resume: the four working
phases map to their own unit of work; any other resume target infers the
furthest-advanced resumable stage from the populated artifacts. -/
def retryWork (target : Phase) (st2 : ArticleState) : List Work :=
  if target = Phase.OUTLINE_GENERATING then [.genOutline]
  else if target = Phase.PAPER_SEARCHING then [.searchPapers]
  else if target = Phase.BODY_GENERATING then [.genBody]
  else if target = Phase.PUBLISHING then [.publishArticle]
  else match st2.body_text with
       | some _ => [.publishArticle]
       | Option.none =>
         match st2.selected_pmid with
         | some _ => [.genBody]
         | Option.none =>
           match st2.outline_text with
           | some _ => [.searchPapers]
           | Option.none => [.genOutline]

/-- The resume step of `Services.retry`: clear the error fields, move to
the recorded prev phase (an unrecognized string falls back to
`OUTLINE_GENERATING`) and spawn the corresponding work. -/
def retryResume (doc : Doc) (raw : String) (now : Int) : Except (Doc × PyErr) StepResult :=
  let d1 := clear_error doc now
  let target := match Phase.fromString raw with
                | some p => p
                | Option.none => Phase.OUTLINE_GENERATING
  let d2 := update_article_fields d1 [] (some target) true now
  match from_dict d2 with
  | .error e => .error (d2, e)
  | .ok st2 => .ok { doc := d2, posts := [], spawned := retryWork target st2 }

/-- The prev-phase check of `Services.retry`. -/
def retryCheckPrev (doc : Doc) (st : ArticleState) (now : Int) :
    Except (Doc × PyErr) StepResult :=
  let raw := pyStrip (st.error_prev_phase.getD "")
  if raw == "" then
    .ok { doc := doc, posts := [⟨st.slack_channel_id, "再試行できません。", Option.none⟩],
          spawned := [] }
  else retryResume doc raw now

def retryBody (doc : Doc) (st : ArticleState) (now : Int) :
    Except (Doc × PyErr) StepResult :=
    match st.retry_available_until with
    | Option.none =>
        .ok { doc := doc, posts := [⟨st.slack_channel_id, "期限切れです。", Option.none⟩],
              spawned := [] }
    | some u =>
        if is_expired u now then
          .ok { doc := doc, posts := [⟨st.slack_channel_id, "期限切れです。", Option.none⟩],
                spawned := [] }
        else retryCheckPrev doc st now

/-- `Services.retry` (see `retryBody`): refuse when the retry window is
missing or elapsed or no prev phase is recorded; otherwise clear the
error fields, move back to the recorded prev phase and spawn the
matching unit of work. -/
def retry (doc : Doc) (now : Int) (cfgChannel : String) : StepResult :=
  runStep cfgChannel .ERROR now (
    match from_dict doc with
    | .error e => .error (doc, e)
    | .ok st => retryBody doc st now)

/-- `Services.request_outline_revision`: at the revision ceiling, advance
to `FINAL_REVIEW` without opening a thread; otherwise store the parent
timestamp as the waiting marker and advance to
`OUTLINE_WAITING_FEEDBACK`. -/
def request_outline_revisionBody (doc : Doc) (st : ArticleState) (parent_ts : String)
    (now : Int) : Except (Doc × PyErr) StepResult :=
    if 3 ≤ st.outline_revision_count then
      let d1 := update_article_fields doc [("slack_revision_thread_ts", Val.none)]
        (some .FINAL_REVIEW) true now
      match from_dict d1 with
      | .error e => .error (d1, e)
      | .ok st1 =>
          .ok { doc := d1,
                posts := [⟨st1.slack_channel_id,
                           "修正回数が上限に達しました。破棄または承認を選択してください。", Option.none⟩],
                spawned := [] }
    else
      let d1 := update_article_fields doc [("slack_revision_thread_ts", .str parent_ts)]
        (some .OUTLINE_WAITING_FEEDBACK) true now
      match from_dict d1 with
      | .error e => .error (d1, e)
      | .ok st1 =>
          .ok { doc := d1,
                posts := [⟨st1.slack_channel_id,
                           "構成案の修正指示をこのスレッドに返信してください。", some parent_ts⟩],
                spawned := [] }

/-- `Services.request_outline_revision` (see the Body function): at the
revision ceiling, advance to `FINAL_REVIEW` without opening a thread;
otherwise store the waiting marker and advance to
`OUTLINE_WAITING_FEEDBACK`. -/
def request_outline_revision (doc : Doc) (parent_ts : String) (now : Int)
    (cfgChannel : String) : StepResult :=
  runStep cfgChannel .OUTLINE_REVIEW now (
    match from_dict doc with
    | .error e => .error (doc, e)
    | .ok st => request_outline_revisionBody doc st parent_ts now)

/-- `Services.receive_outline_feedback`: increment the outline revision
count, store the feedback, clear the thread marker, go back to
`OUTLINE_GENERATING` and spawn outline generation. -/
def receive_outline_feedbackBody (doc : Doc) (st : ArticleState) (feedback : String)
    (now : Int) : Except (Doc × PyErr) StepResult :=
    let d1 := update_article_fields doc
      [("outline_feedback_text", .str feedback),
       ("outline_revision_count", .int (st.outline_revision_count + 1)),
       ("slack_revision_thread_ts", Val.none)]
      (some .OUTLINE_GENERATING) true now
    match from_dict d1 with
    | .error e => .error (d1, e)
    | .ok st1 =>
        .ok { doc := d1,
              posts := [⟨st1.slack_channel_id,
                         "修正指示を受け取りました。構成案を再生成します。", Option.none⟩],
              spawned := [.genOutline] }

/-- `Services.receive_outline_feedback` (see the Body function):
increment the outline revision count, store the feedback, clear the
thread marker, go back to `OUTLINE_GENERATING` and spawn generation. -/
def receive_outline_feedback (doc : Doc) (feedback : String) (now : Int)
    (cfgChannel : String) : StepResult :=
  runStep cfgChannel .OUTLINE_WAITING_FEEDBACK now (
    match from_dict doc with
    | .error e => .error (doc, e)
    | .ok st => receive_outline_feedbackBody doc st feedback now)

/-- `Services.request_paper_revision`: at the ceiling, only a "pick from
the existing candidates" message is posted and nothing is written;
otherwise store the waiting marker and advance to
`PAPER_WAITING_FEEDBACK`. -/
def request_paper_revisionBody (doc : Doc) (st : ArticleState) (parent_ts : String)
    (now : Int) : Except (Doc × PyErr) StepResult :=
    if 3 ≤ st.paper_revision_count then
      .ok { doc := doc,
            posts := [⟨st.slack_channel_id,
                       "論文検索の修正は上限に達しました。候補から選択してください。", Option.none⟩],
            spawned := [] }
    else
      let d1 := update_article_fields doc [("slack_revision_thread_ts", .str parent_ts)]
        (some .PAPER_WAITING_FEEDBACK) true now
      match from_dict d1 with
      | .error e => .error (d1, e)
      | .ok st1 =>
          .ok { doc := d1,
                posts := [⟨st1.slack_channel_id,
                           "論文検索の修正指示をこのスレッドに返信してください。", some parent_ts⟩],
                spawned := [] }

/-- `Services.request_paper_revision` (see the Body function): at the
ceiling, only a "pick from the existing candidates" message is posted
and nothing is written; otherwise store the waiting marker and advance
to `PAPER_WAITING_FEEDBACK`. -/
def request_paper_revision (doc : Doc) (parent_ts : String) (now : Int)
    (cfgChannel : String) : StepResult :=
  runStep cfgChannel .PAPER_REVIEW now (
    match from_dict doc with
    | .error e => .error (doc, e)
    | .ok st => request_paper_revisionBody doc st parent_ts now)

/-- `Services.receive_paper_feedback`. -/
def receive_paper_feedbackBody (doc : Doc) (st : ArticleState) (feedback : String)
    (now : Int) : Except (Doc × PyErr) StepResult :=
    let d1 := update_article_fields doc
      [("paper_feedback_text", .str feedback),
       ("paper_revision_count", .int (st.paper_revision_count + 1)),
       ("slack_revision_thread_ts", Val.none)]
      (some .PAPER_SEARCHING) true now
    match from_dict d1 with
    | .error e => .error (d1, e)
    | .ok st1 =>
        .ok { doc := d1,
              posts := [⟨st1.slack_channel_id,
                         "修正指示を受け取りました。論文候補を再取得します。", Option.none⟩],
              spawned := [.searchPapers] }

/-- `Services.receive_paper_feedback` (see the Body function). -/
def receive_paper_feedback (doc : Doc) (feedback : String) (now : Int)
    (cfgChannel : String) : StepResult :=
  runStep cfgChannel .PAPER_WAITING_FEEDBACK now (
    match from_dict doc with
    | .error e => .error (doc, e)
    | .ok st => receive_paper_feedbackBody doc st feedback now)

/-- `Services.request_body_revision`: at the ceiling, advance to
`FINAL_REVIEW` without opening a thread; otherwise store the waiting
marker and advance to `BODY_WAITING_FEEDBACK`. -/
def request_body_revisionBody (doc : Doc) (st : ArticleState) (parent_ts : String)
    (now : Int) : Except (Doc × PyErr) StepResult :=
    if 3 ≤ st.body_revision_count then
      let d1 := update_article_fields doc [("slack_revision_thread_ts", Val.none)]
        (some .FINAL_REVIEW) true now
      match from_dict d1 with
      | .error e => .error (d1, e)
      | .ok st1 =>
          .ok { doc := d1,
                posts := [⟨st1.slack_channel_id,
                           "修正回数が上限に達しました。破棄または承認を選択してください。", Option.none⟩],
                spawned := [] }
    else
      let d1 := update_article_fields doc [("slack_revision_thread_ts", .str parent_ts)]
        (some .BODY_WAITING_FEEDBACK) true now
      match from_dict d1 with
      | .error e => .error (d1, e)
      | .ok st1 =>
          .ok { doc := d1,
                posts := [⟨st1.slack_channel_id,
                           "本文の修正指示をこのスレッドに返信してください。", some parent_ts⟩],
                spawned := [] }

/-- `Services.request_body_revision` (see the Body function): at the
ceiling, advance to `FINAL_REVIEW` without opening a thread; otherwise
store the waiting marker and advance to `BODY_WAITING_FEEDBACK`. -/
def request_body_revision (doc : Doc) (parent_ts : String) (now : Int)
    (cfgChannel : String) : StepResult :=
  runStep cfgChannel .BODY_REVIEW now (
    match from_dict doc with
    | .error e => .error (doc, e)
    | .ok st => request_body_revisionBody doc st parent_ts now)

/-- `Services.receive_body_feedback`. -/
def receive_body_feedbackBody (doc : Doc) (st : ArticleState) (feedback : String)
    (now : Int) : Except (Doc × PyErr) StepResult :=
    let d1 := update_article_fields doc
      [("body_feedback_text", .str feedback),
       ("body_revision_count", .int (st.body_revision_count + 1)),
       ("slack_revision_thread_ts", Val.none)]
      (some .BODY_GENERATING) true now
    match from_dict d1 with
    | .error e => .error (d1, e)
    | .ok st1 =>
        .ok { doc := d1,
              posts := [⟨st1.slack_channel_id,
                         "修正指示を受け取りました。本文を再生成します。", Option.none⟩],
              spawned := [.genBody] }

/-- `Services.receive_body_feedback` (see the Body function). -/
def receive_body_feedback (doc : Doc) (feedback : String) (now : Int)
    (cfgChannel : String) : StepResult :=
  runStep cfgChannel .BODY_WAITING_FEEDBACK now (
    match from_dict doc with
    | .error e => .error (doc, e)
    | .ok st => receive_body_feedbackBody doc st feedback now)

/-- `Services.search_papers` given the OpenAI query response and the
PubMed esearch/efetch responses: store the query and the candidate
dicts, clear feedback/selection/marker, advance to `PAPER_REVIEW`. -/
def search_papersBody (doc : Doc) (queryRes : Except PyErr String)
    (ids : List String) (count : Option Int) (raws : List RawArticle)
    (now : Int) : Except (Doc × PyErr) StepResult :=
    match queryRes with
    | .error e => .error (doc, e)
    | .ok q =>
    match fetch_top_abstracts q 3 ids count raws with
    | .error e => .error (doc, e)
    | .ok papers =>
    let candidates := papers.map PubMedPaper.to_dict
    let d1 := update_article_fields doc
      [("pubmed_query", .str q),
       ("paper_candidates", .dictList candidates),
       ("paper_feedback_text", Val.none),
       ("selected_pmid", Val.none),
       ("slack_revision_thread_ts", Val.none)]
      (some .PAPER_REVIEW) true now
    match from_dict d1 with
    | .error e => .error (d1, e)
    | .ok st1 =>
        .ok { doc := d1,
              posts := [⟨st1.slack_channel_id,
                         "論文候補を取得しました。選択または修正指示をお願いします。", Option.none⟩],
              spawned := [] }

/-- `Services.search_papers` (see the Body function) given the OpenAI
query response and the PubMed esearch/efetch responses: store the query
and the candidate dicts, clear feedback/selection/marker, advance to
`PAPER_REVIEW`. -/
def search_papers (doc : Doc) (queryRes : Except PyErr String)
    (ids : List String) (count : Option Int) (raws : List RawArticle)
    (now : Int) (cfgChannel : String) : StepResult :=
  runStep cfgChannel .PAPER_SEARCHING now (
    match from_dict doc with
    | .error e => .error (doc, e)
    | .ok _st => search_papersBody doc queryRes ids count raws now)

/-- `Services.publish_article` given the WordPress server state and the
OpenAI title/slug and categories/tags responses.  A post already carrying
the durable marker is adopted (`int(existing.get("id") or 0)` is the
identity on the stored integer id) and the handler completes without
publishing again; otherwise the full publish sequence runs. -/
def publish_articleBody (article_id : String) (doc : Doc) (st : ArticleState)
    (site : WpSite) (titleSlugRes : Except PyErr (String × String))
    (catsTagsRes : Except PyErr (List String × List String))
    (now : Int) (cfgChannel : String) : StepResult × WpSite :=
    match find_existing_by_article_id site article_id with
    | some existing =>
        let d1 := update_article_fields doc
          [("wp_post_id", .int existing.id), ("wp_post_url", .str existing.link)]
          (some .PUBLISHED) true now
        match from_dict d1 with
        | .error e => (handleError cfgChannel d1 .PUBLISHING e now, site)
        | .ok st1 =>
            ({ doc := d1,
               posts := [⟨st1.slack_channel_id, "投稿が完了しました。", Option.none⟩],
               spawned := [] }, site)
    | Option.none =>
        match findSelectedCandidate st.paper_candidates st.selected_pmid with
        | Option.none =>
            (handleError cfgChannel doc .PUBLISHING
              (.externalApi "NoSelectedPaper" "selected paper not found") now, site)
        | some _sel =>
            match titleSlugRes with
            | .error e => (handleError cfgChannel doc .PUBLISHING e now, site)
            | .ok ts =>
              match catsTagsRes with
              | .error e => (handleError cfgChannel doc .PUBLISHING e now, site)
              | .ok ct =>
                let er := ensure_terms site ct.1 ct.2
                let body := match st.body_text with | some b => b | Option.none => ""
                let pr := publish_post er.1 body article_id
                match pr.2 with
                | .error e => (handleError cfgChannel doc .PUBLISHING e now, pr.1)
                | .ok pl =>
                  let d1 := update_article_fields doc
                    [("wp_post_id", .int pl.1),
                     ("wp_post_url", .str pl.2),
                     ("wp_title", .str ts.1),
                     ("wp_slug", .str ts.2),
                     ("wp_categories", .strList ct.1),
                     ("wp_tags", .strList ct.2)]
                    (some .PUBLISHED) true now
                  match from_dict d1 with
                  | .error e => (handleError cfgChannel d1 .PUBLISHING e now, pr.1)
                  | .ok st1 =>
                      ({ doc := d1,
                         posts := [⟨st1.slack_channel_id, "投稿が完了しました。", Option.none⟩],
                         spawned := [] }, pr.1)

/-- `Services.publish_article` (see the Body function) given the
WordPress server state and the OpenAI title/slug and categories/tags
responses; a post already carrying the durable marker is adopted and the
handler completes without publishing again. -/
def publish_article (article_id : String) (doc : Doc) (site : WpSite)
    (titleSlugRes : Except PyErr (String × String))
    (catsTagsRes : Except PyErr (List String × List String))
    (now : Int) (cfgChannel : String) : StepResult × WpSite :=
  match from_dict doc with
  | .error e => (handleError cfgChannel doc .PUBLISHING e now, site)
  | .ok st => publish_articleBody article_id doc st site titleSlugRes catsTagsRes now cfgChannel

/-- A fresh `ArticleState` with the dataclass defaults of `app/domain.py`. -/
def newArticleState (article_id keyword planned_date : String) : ArticleState :=
  { article_id := article_id
    keyword := keyword
    planned_date := planned_date
    sheet_snapshot := []
    phase := .OUTLINE_GENERATING
    slack_channel_id := ""
    slack_last_message_ts := Option.none
    slack_revision_thread_ts := Option.none
    outline_text := Option.none
    outline_feedback_text := Option.none
    outline_revision_count := 0
    pubmed_query := Option.none
    paper_candidates := []
    selected_pmid := Option.none
    paper_feedback_text := Option.none
    paper_revision_count := 0
    body_text := Option.none
    body_feedback_text := Option.none
    body_revision_count := 0
    wp_post_id := Option.none
    wp_post_url := Option.none
    wp_title := Option.none
    wp_slug := Option.none
    wp_categories := []
    wp_tags := []
    error_prev_phase := Option.none
    error_type := Option.none
    error_message := Option.none
    error_user_message := Option.none
    error_occurred_at := Option.none
    retry_available_until := Option.none
    created_at := Option.none
    updated_at := Option.none
    phase_updated_at := Option.none }

/-- The outcome of a `start_article` run that did not raise: the created
document (if any), the posts, and the spawned work. -/
structure StartResult where
  created : Option Doc
  posts : List SlackPost
  spawned : List Work
  deriving DecidableEq, Repr

/-- `Services.start_article`: validate inputs, snapshot best-effort, then
compute the article id with
`generate_article_id(keyword=keyword, planned_date=planned_date)` —
keyword arguments bound with `generate_article_id_kwargs` — create the
record and spawn outline generation.  `start_article` has no
`try`/`except`, so an exception propagates as `.error`.  (A `None`
snapshot and an empty dict are identified here.) -/
def start_article (keyword planned_date slack_channel_id : String)
    (snapshotRes : Except PyErr SDict) (now : Int) : Except PyErr StartResult :=
  let kw := pyStrip keyword
  let pd := normalize_ymd planned_date
  if kw == "" || pd == "" then .ok { created := Option.none, posts := [], spawned := [] }
  else
    let snapshot : SDict := match snapshotRes with | .ok s => s | .error _ => []
    match generate_article_id_kwargs [("keyword", .str kw), ("planned_date", .str pd)] with
    | .error e => .error e
    | .ok article_id =>
        let st : ArticleState :=
          { newArticleState article_id kw pd with
              slack_channel_id := slack_channel_id
              sheet_snapshot := snapshot
              created_at := some (now_jst_iso now)
              phase_updated_at := some (now_jst_iso now) }
        .ok { created := some (create_article st now),
              posts := [⟨slack_channel_id,
                         "記事作成を開始しました。article_id=" ++ article_id, Option.none⟩],
              spawned := [.genOutline] }

/-- A stored optional string field in the normal form the engine itself
writes: absent, or stripped and non-empty. -/
def normStr (o : Option String) : Bool :=
  match o with
  | Option.none => true
  | some s => pyStrip s == s && s != ""

/-- A record whose optional string fields are in storage normal form
(what `from_dict` itself produces, since `_opt_str` strips and collapses
empties). -/
def ArticleState.normalizedB (st : ArticleState) : Bool :=
  normStr st.slack_last_message_ts && normStr st.slack_revision_thread_ts &&
  normStr st.outline_text && normStr st.outline_feedback_text &&
  normStr st.pubmed_query && normStr st.selected_pmid && normStr st.paper_feedback_text &&
  normStr st.body_text && normStr st.body_feedback_text &&
  normStr st.wp_post_url && normStr st.wp_title && normStr st.wp_slug &&
  normStr st.error_prev_phase && normStr st.error_type && normStr st.error_message &&
  normStr st.error_user_message && normStr st.error_occurred_at &&
  normStr st.retry_available_until &&
  normStr st.created_at && normStr st.updated_at && normStr st.phase_updated_at

/-! Lemmas. -/

@[simp] theorem lookupVal_nil (k : String) : lookupVal [] k = Option.none := rfl

@[simp] theorem lookupVal_cons (k0 : String) (v : Val) (d : Doc) (k : String) :
    lookupVal ((k0, v) :: d) k = if k0 == k then some v else lookupVal d k := by
  simp [lookupVal, List.find?]
  split <;> simp_all

@[simp] theorem lookupVal_eraseKey (d : Doc) (k0 k : String) :
    lookupVal (eraseKey d k0) k = if k0 == k then Option.none else lookupVal d k := by
  induction d with
  | nil => simp [eraseKey]
  | cons p d ih =>
      obtain ⟨k1, v1⟩ := p
      rcases eq_or_ne k1 k0 with h1 | h1
      · subst h1
        rcases eq_or_ne k1 k with h2 | h2
        · subst h2; simp_all [eraseKey]
        · simp_all [eraseKey]
      · rcases eq_or_ne k0 k with h2 | h2
        · subst h2
          have h1' : ¬ k1 = k0 := h1
          simp_all [eraseKey]
        · have h2' : ¬ k = k0 := fun hh => h2 hh.symm
          simp_all [eraseKey]

theorem getVal_of_lookup (d : Doc) (k : String) (v : Val) (h : lookupVal d k = some v) :
    getVal d k = v := by
  simp [getVal, h]

theorem getVal_of_lookup_none (d : Doc) (k : String) (h : lookupVal d k = Option.none) :
    getVal d k = Val.none := by
  simp [getVal, h]

@[simp] theorem optStr_optVal (o : Option String) (h : normStr o = true) :
    optStr (optVal o) = o := by
  cases o with
  | none => rfl
  | some s =>
      simp [normStr] at h
      simp [optStr, optVal, Val.pyStr, h.1, h.2]

@[simp] theorem optInt_optIntVal (o : Option Int) : optInt (optIntVal o) = o := by
  cases o <;> rfl

@[simp] theorem optStr_vnone : optStr Val.none = Option.none := rfl

@[simp] theorem optInt_vnone : optInt Val.none = Option.none := rfl

@[simp] theorem intOr0_int (n : Int) : intOr0 (.int n) = .ok n := by
  by_cases h : n = 0 <;> simp [intOr0, Val.falsy, h]

@[simp] theorem asDict_dict (d : SDict) : asDict (.dict d) = .ok d := by
  cases d <;> simp [asDict, Val.falsy]

@[simp] theorem asDictList_dictList (ds : List SDict) : asDictList (.dictList ds) = .ok ds := by
  cases ds <;> simp [asDictList, Val.falsy]

@[simp] theorem asStrList_strList (ss : List String) : asStrList (.strList ss) = .ok ss := by
  cases ss <;> simp [asStrList, Val.falsy]

@[simp] theorem phase_value_ne_empty (p : Phase) : (p.value == "") = false := by
  cases p <;> rfl

@[simp] theorem pyStrip_phase_value (p : Phase) : pyStrip p.value = p.value := by
  cases p <;> rfl

@[simp] theorem fromString_phase_value (p : Phase) : Phase.fromString p.value = some p := by
  cases p <;> rfl

@[simp] theorem asStrOrEmpty_str (s : String) :
    asStrOrEmpty (.str s) = s := by
  by_cases h : s = "" <;> simp [asStrOrEmpty, Val.falsy, Val.pyStr, h]

theorem decodePhase_of_str (d : Doc) (p : Phase) (h : getVal d "phase" = Val.str p.value) :
    decodePhase d = .ok p := by
  simp [decodePhase, h]

/-- `from_dict` inverts `to_dict` on records in storage normal form. -/
theorem from_dict_to_dict (st : ArticleState) (h : st.normalizedB = true) :
    from_dict (to_dict st) = .ok st := by
  simp only [ArticleState.normalizedB, Bool.and_eq_true] at h
  obtain ⟨⟨⟨⟨⟨⟨⟨⟨⟨⟨⟨⟨⟨⟨⟨⟨⟨⟨⟨⟨h1, h2⟩, h3⟩, h4⟩, h5⟩, h6⟩, h7⟩, h8⟩, h9⟩, h10⟩,
    h11⟩, h12⟩, h13⟩, h14⟩, h15⟩, h16⟩, h17⟩, h18⟩, h19⟩, h20⟩, h21⟩ := h
  simp [from_dict, to_dict, decodePhase, getVal, List.find?,
    h1, h2, h3, h4, h5, h6, h7, h8, h9, h10, h11, h12, h13, h14, h15, h16, h17, h18,
    h19, h20, h21]

@[simp] theorem lookupVal_setKey (d : Doc) (k0 : String) (v : Val) (k : String) :
    lookupVal (setKey d k0 v) k = if k0 == k then some v else lookupVal d k := by
  simp [setKey]

theorem lookupVal_applyPatch (ps : PPatch) (d : Doc) (k : String) :
    lookupVal (applyPatch d ps) k =
      match patchFind ps k with
      | some (.val v) => some v
      | some .del => Option.none
      | Option.none => lookupVal d k := by
  induction ps generalizing d with
  | nil => rfl
  | cons kv ps ih =>
      obtain ⟨k1, pv⟩ := kv
      have hstep : applyPatch d ((k1, pv) :: ps) =
          applyPatch (match pv with
                      | .val v => setKey d k1 v
                      | .del => eraseKey d k1) ps := by
        cases pv <;> rfl
      rw [hstep, ih]
      cases hf : patchFind ps k with
      | some x => cases x <;> simp [patchFind, hf]
      | none =>
          cases pv with
          | val v => by_cases h : k1 = k <;> simp [patchFind, hf, h]
          | del => by_cases h : k1 = k <;> simp [patchFind, hf, h]

theorem patchFind_append (p1 p2 : PPatch) (k : String) :
    patchFind (p1 ++ p2) k =
      match patchFind p2 k with
      | some x => some x
      | Option.none => patchFind p1 k := by
  induction p1 with
  | nil =>
      simp only [List.nil_append]
      cases h2 : patchFind p2 k <;> simp [patchFind, h2]
  | cons kv p1 ih =>
      simp only [List.cons_append, patchFind, List.append_eq]
      rw [ih]
      cases h2 : patchFind p2 k <;> cases h1 : patchFind p1 k <;> simp [h1, h2]

theorem patchFind_map_val_none (updates : List (String × Val)) (k : String)
    (h : ∀ kv ∈ updates, kv.1 ≠ k) :
    patchFind (updates.map (fun kv => (kv.1, PVal.val kv.2))) k = Option.none := by
  induction updates with
  | nil => rfl
  | cons kv updates ih =>
      have h1 : kv.1 ≠ k := h kv (List.mem_cons_self kv updates)
      have h2 : ∀ x ∈ updates, x.1 ≠ k := fun x hx => h x (List.mem_cons_of_mem kv hx)
      simp [patchFind, ih h2, h1]

/-- C7: for every write through `update_article_fields` (the engine's
single update primitive, with its default `phase_update_only_when_changed`
and updates that do not spoof the reserved `phase`/`phase_updated_at`
keys, and a fresh write time), `updated_at` is stamped with the write
time, `phase_updated_at` changes if and only if `phase` changes, and when
it changes it equals the `updated_at` of that same write. -/
theorem c7_phase_updated_at_iff_phase_change
    (doc : Doc) (updates : List (String × Val)) (sp : Option Phase) (now : Int)
    (hU1 : ∀ kv ∈ updates, kv.1 ≠ "phase")
    (hU2 : ∀ kv ∈ updates, kv.1 ≠ "phase_updated_at")
    (hfresh : lookupVal doc "phase_updated_at" ≠ some (.str (now_jst_iso now))) :
    lookupVal (update_article_fields doc updates sp true now) "updated_at"
        = some (.str (now_jst_iso now)) ∧
    (lookupVal (update_article_fields doc updates sp true now) "phase" ≠ lookupVal doc "phase"
      ↔ lookupVal (update_article_fields doc updates sp true now) "phase_updated_at"
          ≠ lookupVal doc "phase_updated_at") ∧
    (lookupVal (update_article_fields doc updates sp true now) "phase" ≠ lookupVal doc "phase"
      → lookupVal (update_article_fields doc updates sp true now) "phase_updated_at"
          = lookupVal (update_article_fields doc updates sp true now) "updated_at") := by
  have hup1 : patchFind (updates.map (fun kv => (kv.1, PVal.val kv.2))) "phase"
      = Option.none := patchFind_map_val_none updates "phase" hU1
  have hup2 : patchFind (updates.map (fun kv => (kv.1, PVal.val kv.2))) "phase_updated_at"
      = Option.none := patchFind_map_val_none updates "phase_updated_at" hU2
  cases sp with
  | none =>
      simp [update_article_fields, lookupVal_applyPatch, patchFind_append, patchFind,
        hup1, hup2]
  | some p =>
      by_cases hc : asStrOrEmpty (getVal doc "phase") = p.value
      · simp [update_article_fields, hc, lookupVal_applyPatch, patchFind_append, patchFind,
          hup1, hup2]
      · have hdocphase : lookupVal doc "phase" ≠ some (.str p.value) := by
          intro hl
          apply hc
          have hg : getVal doc "phase" = .str p.value := by simp [getVal, hl]
          rw [hg]
          exact asStrOrEmpty_str _
        simp [update_article_fields, hc, lookupVal_applyPatch, patchFind_append, patchFind,
          hup1, hup2, hdocphase]
        constructor
        · intro _
          exact fun hh => hfresh hh.symm
        · intro _
          exact fun hh => hdocphase hh.symm

/-- Witness for C7 at a concrete record, update and phase transition. -/
theorem c7_witness :
    (∀ kv ∈ [(("outline_text" : String), Val.str "x")], kv.1 ≠ "phase") ∧
    (∀ kv ∈ [(("outline_text" : String), Val.str "x")], kv.1 ≠ "phase_updated_at") ∧
    (lookupVal [("phase", Val.str "OUTLINE_REVIEW"), ("phase_updated_at", Val.str "1")]
        "phase_updated_at" ≠ some (.str (now_jst_iso 2))) ∧
    (lookupVal (update_article_fields
        [("phase", Val.str "OUTLINE_REVIEW"), ("phase_updated_at", Val.str "1")]
        [("outline_text", Val.str "x")] (some .FINAL_REVIEW) true 2) "updated_at"
        = some (.str (now_jst_iso 2)) ∧
      (lookupVal (update_article_fields
          [("phase", Val.str "OUTLINE_REVIEW"), ("phase_updated_at", Val.str "1")]
          [("outline_text", Val.str "x")] (some .FINAL_REVIEW) true 2) "phase"
          ≠ lookupVal [("phase", Val.str "OUTLINE_REVIEW"), ("phase_updated_at", Val.str "1")]
              "phase"
        ↔ lookupVal (update_article_fields
            [("phase", Val.str "OUTLINE_REVIEW"), ("phase_updated_at", Val.str "1")]
            [("outline_text", Val.str "x")] (some .FINAL_REVIEW) true 2) "phase_updated_at"
            ≠ lookupVal [("phase", Val.str "OUTLINE_REVIEW"), ("phase_updated_at", Val.str "1")]
                "phase_updated_at") ∧
      (lookupVal (update_article_fields
          [("phase", Val.str "OUTLINE_REVIEW"), ("phase_updated_at", Val.str "1")]
          [("outline_text", Val.str "x")] (some .FINAL_REVIEW) true 2) "phase"
          ≠ lookupVal [("phase", Val.str "OUTLINE_REVIEW"), ("phase_updated_at", Val.str "1")]
              "phase"
        → lookupVal (update_article_fields
            [("phase", Val.str "OUTLINE_REVIEW"), ("phase_updated_at", Val.str "1")]
            [("outline_text", Val.str "x")] (some .FINAL_REVIEW) true 2) "phase_updated_at"
            = lookupVal (update_article_fields
                [("phase", Val.str "OUTLINE_REVIEW"), ("phase_updated_at", Val.str "1")]
                [("outline_text", Val.str "x")] (some .FINAL_REVIEW) true 2) "updated_at")) :=
  ⟨by decide, by decide, by decide,
   c7_phase_updated_at_iff_phase_change
     [("phase", Val.str "OUTLINE_REVIEW"), ("phase_updated_at", Val.str "1")]
     [("outline_text", Val.str "x")] (some .FINAL_REVIEW) 2
     (by decide) (by decide) (by decide)⟩

theorem normalizedB_fields (st : ArticleState) (h : st.normalizedB = true) :
    normStr st.slack_last_message_ts = true ∧ normStr st.slack_revision_thread_ts = true ∧
    normStr st.outline_text = true ∧ normStr st.outline_feedback_text = true ∧
    normStr st.pubmed_query = true ∧ normStr st.selected_pmid = true ∧
    normStr st.paper_feedback_text = true ∧
    normStr st.body_text = true ∧ normStr st.body_feedback_text = true ∧
    normStr st.wp_post_url = true ∧ normStr st.wp_title = true ∧ normStr st.wp_slug = true ∧
    normStr st.error_prev_phase = true ∧ normStr st.error_type = true ∧
    normStr st.error_message = true ∧ normStr st.error_user_message = true ∧
    normStr st.error_occurred_at = true ∧ normStr st.retry_available_until = true ∧
    normStr st.created_at = true ∧ normStr st.updated_at = true ∧
    normStr st.phase_updated_at = true := by
  simp only [ArticleState.normalizedB, Bool.and_eq_true] at h
  tauto

theorem runStep_ok (cfg : String) (prev : Phase) (now : Int) (r : StepResult) :
    runStep cfg prev now (.ok r) = r := rfl

theorem runStep_error (cfg : String) (prev : Phase) (now : Int) (doc : Doc) (e : PyErr) :
    runStep cfg prev now (.error (doc, e)) = handleError cfg doc prev e now := rfl

theorem handleError_loaded (cfg : String) (doc : Doc) (st : ArticleState) (prev : Phase)
    (e : PyErr) (now : Int) (hl : from_dict doc = .ok st) :
    handleError cfg doc prev e now = handleErrorWrite doc st prev e now := by
  unfold handleError
  rw [hl]

/-- Loading the document written by `_handle_error` (error patch plus the
forced `ERROR` phase) over a normalized record not already in `ERROR`. -/
theorem from_dict_error_write (st : ArticleState) (h : st.normalizedB = true)
    (prev : Phase) (e : PyErr) (now : Int) (hv : st.phase.value ≠ Phase.ERROR.value) :
    from_dict (update_article_fields (to_dict st) (errorPatch prev e now) (some .ERROR) true now)
      = .ok { st with
          phase := .ERROR,
          slack_revision_thread_ts := Option.none,
          error_prev_phase := optStr (.str prev.value),
          error_type := optStr (.str (toErrorFields e).1),
          error_message := optStr (.str (toErrorFields e).2.1),
          error_user_message := optStr (.str (toErrorFields e).2.2),
          error_occurred_at := optStr (.str (now_jst_iso now)),
          retry_available_until := optStr (.str (add_days_jst_iso now 7)),
          updated_at := optStr (.str (now_jst_iso now)),
          phase_updated_at := optStr (.str (now_jst_iso now)) } := by
  obtain ⟨h1, h2, h3, h4, h5, h6, h7, h8, h9, h10, h11, h12, h13, h14, h15, h16, h17, h18,
    h19, h20, h21⟩ := normalizedB_fields st h
  simp [update_article_fields, errorPatch, from_dict, decodePhase, getVal,
    lookupVal_applyPatch, patchFind, patchFind_append, to_dict, List.find?,
    bne, hv, h1, h2, h3, h4, h5, h6, h7, h8, h9, h10, h11, h12, h13, h14, h15, h16,
    h17, h18, h19, h20, h21]

/-- Inverting a successful `from_dict`: each stored field conversion
succeeded with the corresponding record field. -/
theorem from_dict_ok_inv (d : Doc) (st : ArticleState) (hl : from_dict d = .ok st) :
    decodePhase d = .ok st.phase ∧
    asDict (getVal d "sheet_snapshot") = .ok st.sheet_snapshot ∧
    intOr0 (getVal d "outline_revision_count") = .ok st.outline_revision_count ∧
    asDictList (getVal d "paper_candidates") = .ok st.paper_candidates ∧
    intOr0 (getVal d "paper_revision_count") = .ok st.paper_revision_count ∧
    intOr0 (getVal d "body_revision_count") = .ok st.body_revision_count ∧
    asStrList (getVal d "wp_categories") = .ok st.wp_categories ∧
    asStrList (getVal d "wp_tags") = .ok st.wp_tags ∧
    asStrOrEmpty (getVal d "article_id") = st.article_id ∧
    asStrOrEmpty (getVal d "keyword") = st.keyword ∧
    asStrOrEmpty (getVal d "planned_date") = st.planned_date ∧
    asStrOrEmpty (getVal d "slack_channel_id") = st.slack_channel_id ∧
    optStr (getVal d "slack_last_message_ts") = st.slack_last_message_ts ∧
    optStr (getVal d "slack_revision_thread_ts") = st.slack_revision_thread_ts ∧
    optStr (getVal d "outline_text") = st.outline_text ∧
    optStr (getVal d "outline_feedback_text") = st.outline_feedback_text ∧
    optStr (getVal d "pubmed_query") = st.pubmed_query ∧
    optStr (getVal d "selected_pmid") = st.selected_pmid ∧
    optStr (getVal d "paper_feedback_text") = st.paper_feedback_text ∧
    optStr (getVal d "body_text") = st.body_text ∧
    optStr (getVal d "body_feedback_text") = st.body_feedback_text ∧
    optInt (getVal d "wp_post_id") = st.wp_post_id ∧
    optStr (getVal d "wp_post_url") = st.wp_post_url ∧
    optStr (getVal d "wp_title") = st.wp_title ∧
    optStr (getVal d "wp_slug") = st.wp_slug ∧
    optStr (getVal d "error_prev_phase") = st.error_prev_phase ∧
    optStr (getVal d "error_type") = st.error_type ∧
    optStr (getVal d "error_message") = st.error_message ∧
    optStr (getVal d "error_user_message") = st.error_user_message ∧
    optStr (getVal d "error_occurred_at") = st.error_occurred_at ∧
    optStr (getVal d "retry_available_until") = st.retry_available_until ∧
    optStr (getVal d "created_at") = st.created_at ∧
    optStr (getVal d "updated_at") = st.updated_at ∧
    optStr (getVal d "phase_updated_at") = st.phase_updated_at := by
  unfold from_dict at hl
  cases h1 : decodePhase d <;> rw [h1] at hl
  case error => cases hl
  case ok =>
  cases h2 : asDict (getVal d "sheet_snapshot") <;> rw [h2] at hl
  case error => cases hl
  case ok =>
  cases h3 : intOr0 (getVal d "outline_revision_count") <;> rw [h3] at hl
  case error => cases hl
  case ok =>
  cases h4 : asDictList (getVal d "paper_candidates") <;> rw [h4] at hl
  case error => cases hl
  case ok =>
  cases h5 : intOr0 (getVal d "paper_revision_count") <;> rw [h5] at hl
  case error => cases hl
  case ok =>
  cases h6 : intOr0 (getVal d "body_revision_count") <;> rw [h6] at hl
  case error => cases hl
  case ok =>
  cases h7 : asStrList (getVal d "wp_categories") <;> rw [h7] at hl
  case error => cases hl
  case ok =>
  cases h8 : asStrList (getVal d "wp_tags") <;> rw [h8] at hl
  case error => cases hl
  case ok =>
  cases hl
  simp_all

theorem getVal_applyPatch (ps : PPatch) (d : Doc) (k : String) :
    getVal (applyPatch d ps) k =
      match patchFind ps k with
      | some (.val v) => v
      | some .del => Val.none
      | Option.none => getVal d k := by
  simp only [getVal, lookupVal_applyPatch]
  cases patchFind ps k with
  | none => rfl
  | some x => cases x <;> rfl

/-- Loading the document written by `_handle_error` over any document
that loads as `st` and whose stored phase string is not already
"ERROR". -/
theorem from_dict_error_write_any (d : Doc) (st : ArticleState) (hl : from_dict d = .ok st)
    (prev : Phase) (e : PyErr) (now : Int)
    (hcur : asStrOrEmpty (getVal d "phase") ≠ Phase.ERROR.value) :
    from_dict (update_article_fields d (errorPatch prev e now) (some .ERROR) true now)
      = .ok { st with
          phase := .ERROR,
          slack_revision_thread_ts := Option.none,
          error_prev_phase := optStr (.str prev.value),
          error_type := optStr (.str (toErrorFields e).1),
          error_message := optStr (.str (toErrorFields e).2.1),
          error_user_message := optStr (.str (toErrorFields e).2.2),
          error_occurred_at := optStr (.str (now_jst_iso now)),
          retry_available_until := optStr (.str (add_days_jst_iso now 7)),
          updated_at := optStr (.str (now_jst_iso now)),
          phase_updated_at := optStr (.str (now_jst_iso now)) } := by
  obtain ⟨i1, i2, i3, i4, i5, i6, i7, i8, i9, i10, i11, i12, i13, i14, i15, i16, i17, i18,
    i19, i20, i21, i22, i23, i24, i25, i26, i27, i28, i29, i30, i31, i32, i33, i34⟩ :=
    from_dict_ok_inv d st hl
  simp [update_article_fields, errorPatch, from_dict, decodePhase, getVal_applyPatch,
    patchFind, patchFind_append, List.find?, bne, hcur,
    i1, i2, i3, i4, i5, i6, i7, i8, i9, i10, i11, i12, i13, i14, i15, i16, i17, i18,
    i19, i20, i21, i22, i23, i24, i25, i26, i27, i28, i29, i30, i31, i32, i33, i34]

/-- Loading the document written by the `select_paper` success path. -/
theorem from_dict_select_write_any (d : Doc) (st : ArticleState) (hl : from_dict d = .ok st)
    (pmid : String) (sel : SDict) (now : Int)
    (hcur : asStrOrEmpty (getVal d "phase") ≠ Phase.BODY_GENERATING.value) :
    from_dict (update_article_fields d
        [("selected_pmid", .str pmid), ("selected_paper", .dict sel),
         ("slack_revision_thread_ts", Val.none)]
        (some .BODY_GENERATING) true now)
      = .ok { st with
          phase := .BODY_GENERATING,
          selected_pmid := optStr (.str pmid),
          slack_revision_thread_ts := Option.none,
          updated_at := optStr (.str (now_jst_iso now)),
          phase_updated_at := optStr (.str (now_jst_iso now)) } := by
  obtain ⟨i1, i2, i3, i4, i5, i6, i7, i8, i9, i10, i11, i12, i13, i14, i15, i16, i17, i18,
    i19, i20, i21, i22, i23, i24, i25, i26, i27, i28, i29, i30, i31, i32, i33, i34⟩ :=
    from_dict_ok_inv d st hl
  simp [update_article_fields, from_dict, decodePhase, getVal_applyPatch,
    patchFind, patchFind_append, List.find?, bne, hcur,
    i1, i2, i3, i4, i5, i6, i7, i8, i9, i10, i11, i12, i13, i14, i15, i16, i17, i18,
    i19, i20, i21, i22, i23, i24, i25, i26, i27, i28, i29, i30, i31, i32, i33, i34]

/-- Loading the document after a write of the revision-thread marker
together with a phase transition (the revision/approve handlers). -/
theorem from_dict_thread_write_any (d : Doc) (st : ArticleState) (hl : from_dict d = .ok st)
    (v : Val) (p : Phase) (now : Int)
    (hcur : asStrOrEmpty (getVal d "phase") ≠ p.value) :
    from_dict (update_article_fields d [("slack_revision_thread_ts", v)] (some p) true now)
      = .ok { st with
          phase := p,
          slack_revision_thread_ts := optStr v,
          updated_at := optStr (.str (now_jst_iso now)),
          phase_updated_at := optStr (.str (now_jst_iso now)) } := by
  obtain ⟨i1, i2, i3, i4, i5, i6, i7, i8, i9, i10, i11, i12, i13, i14, i15, i16, i17, i18,
    i19, i20, i21, i22, i23, i24, i25, i26, i27, i28, i29, i30, i31, i32, i33, i34⟩ :=
    from_dict_ok_inv d st hl
  simp [update_article_fields, from_dict, decodePhase, getVal_applyPatch,
    patchFind, patchFind_append, List.find?, bne, hcur,
    i1, i2, i3, i4, i5, i6, i7, i8, i9, i10, i11, i12, i13, i14, i15, i16, i17, i18,
    i19, i20, i21, i22, i23, i24, i25, i26, i27, i28, i29, i30, i31, i32, i33, i34]

/-- Loading the document written by `receive_outline_feedback`. -/
theorem from_dict_outline_feedback_write_any (d : Doc) (st : ArticleState)
    (hl : from_dict d = .ok st) (fb : String) (n : Int) (now : Int)
    (hcur : asStrOrEmpty (getVal d "phase") ≠ Phase.OUTLINE_GENERATING.value) :
    from_dict (update_article_fields d
        [("outline_feedback_text", .str fb), ("outline_revision_count", .int n),
         ("slack_revision_thread_ts", Val.none)]
        (some .OUTLINE_GENERATING) true now)
      = .ok { st with
          phase := .OUTLINE_GENERATING,
          outline_feedback_text := optStr (.str fb),
          outline_revision_count := n,
          slack_revision_thread_ts := Option.none,
          updated_at := optStr (.str (now_jst_iso now)),
          phase_updated_at := optStr (.str (now_jst_iso now)) } := by
  obtain ⟨i1, i2, i3, i4, i5, i6, i7, i8, i9, i10, i11, i12, i13, i14, i15, i16, i17, i18,
    i19, i20, i21, i22, i23, i24, i25, i26, i27, i28, i29, i30, i31, i32, i33, i34⟩ :=
    from_dict_ok_inv d st hl
  simp [update_article_fields, from_dict, decodePhase, getVal_applyPatch,
    patchFind, patchFind_append, List.find?, bne, hcur,
    i1, i2, i3, i4, i5, i6, i7, i8, i9, i10, i11, i12, i13, i14, i15, i16, i17, i18,
    i19, i20, i21, i22, i23, i24, i25, i26, i27, i28, i29, i30, i31, i32, i33, i34]

/-- Loading the document written by `receive_paper_feedback`. -/
theorem from_dict_paper_feedback_write_any (d : Doc) (st : ArticleState)
    (hl : from_dict d = .ok st) (fb : String) (n : Int) (now : Int)
    (hcur : asStrOrEmpty (getVal d "phase") ≠ Phase.PAPER_SEARCHING.value) :
    from_dict (update_article_fields d
        [("paper_feedback_text", .str fb), ("paper_revision_count", .int n),
         ("slack_revision_thread_ts", Val.none)]
        (some .PAPER_SEARCHING) true now)
      = .ok { st with
          phase := .PAPER_SEARCHING,
          paper_feedback_text := optStr (.str fb),
          paper_revision_count := n,
          slack_revision_thread_ts := Option.none,
          updated_at := optStr (.str (now_jst_iso now)),
          phase_updated_at := optStr (.str (now_jst_iso now)) } := by
  obtain ⟨i1, i2, i3, i4, i5, i6, i7, i8, i9, i10, i11, i12, i13, i14, i15, i16, i17, i18,
    i19, i20, i21, i22, i23, i24, i25, i26, i27, i28, i29, i30, i31, i32, i33, i34⟩ :=
    from_dict_ok_inv d st hl
  simp [update_article_fields, from_dict, decodePhase, getVal_applyPatch,
    patchFind, patchFind_append, List.find?, bne, hcur,
    i1, i2, i3, i4, i5, i6, i7, i8, i9, i10, i11, i12, i13, i14, i15, i16, i17, i18,
    i19, i20, i21, i22, i23, i24, i25, i26, i27, i28, i29, i30, i31, i32, i33, i34]

/-- Loading the document written by `receive_body_feedback`. -/
theorem from_dict_body_feedback_write_any (d : Doc) (st : ArticleState)
    (hl : from_dict d = .ok st) (fb : String) (n : Int) (now : Int)
    (hcur : asStrOrEmpty (getVal d "phase") ≠ Phase.BODY_GENERATING.value) :
    from_dict (update_article_fields d
        [("body_feedback_text", .str fb), ("body_revision_count", .int n),
         ("slack_revision_thread_ts", Val.none)]
        (some .BODY_GENERATING) true now)
      = .ok { st with
          phase := .BODY_GENERATING,
          body_feedback_text := optStr (.str fb),
          body_revision_count := n,
          slack_revision_thread_ts := Option.none,
          updated_at := optStr (.str (now_jst_iso now)),
          phase_updated_at := optStr (.str (now_jst_iso now)) } := by
  obtain ⟨i1, i2, i3, i4, i5, i6, i7, i8, i9, i10, i11, i12, i13, i14, i15, i16, i17, i18,
    i19, i20, i21, i22, i23, i24, i25, i26, i27, i28, i29, i30, i31, i32, i33, i34⟩ :=
    from_dict_ok_inv d st hl
  simp [update_article_fields, from_dict, decodePhase, getVal_applyPatch,
    patchFind, patchFind_append, List.find?, bne, hcur,
    i1, i2, i3, i4, i5, i6, i7, i8, i9, i10, i11, i12, i13, i14, i15, i16, i17, i18,
    i19, i20, i21, i22, i23, i24, i25, i26, i27, i28, i29, i30, i31, i32, i33, i34]

/-- Loading the document after `clear_error` followed by the phase-only
retry update. -/
theorem from_dict_clear_error_phase_any (d : Doc) (st : ArticleState)
    (hl : from_dict d = .ok st) (p : Phase) (now : Int)
    (hcur : asStrOrEmpty (getVal d "phase") ≠ p.value) :
    from_dict (update_article_fields (clear_error d now) [] (some p) true now)
      = .ok { st with
          phase := p,
          error_prev_phase := Option.none,
          error_type := Option.none,
          error_message := Option.none,
          error_user_message := Option.none,
          error_occurred_at := Option.none,
          retry_available_until := Option.none,
          updated_at := optStr (.str (now_jst_iso now)),
          phase_updated_at := optStr (.str (now_jst_iso now)) } := by
  obtain ⟨i1, i2, i3, i4, i5, i6, i7, i8, i9, i10, i11, i12, i13, i14, i15, i16, i17, i18,
    i19, i20, i21, i22, i23, i24, i25, i26, i27, i28, i29, i30, i31, i32, i33, i34⟩ :=
    from_dict_ok_inv d st hl
  simp [update_article_fields, clear_error, from_dict, decodePhase, getVal_applyPatch,
    patchFind, patchFind_append, List.find?, bne, hcur,
    i1, i2, i3, i4, i5, i6, i7, i8, i9, i10, i11, i12, i13, i14, i15, i16, i17, i18,
    i19, i20, i21, i22, i23, i24, i25, i26, i27, i28, i29, i30, i31, i32, i33, i34]

theorem listHasPre_append (pat b : List Char) : listHasPre pat (pat ++ b) = true := by
  induction pat with
  | nil => rfl
  | cons c cs ih => simp [listHasPre, ih]

theorem listInf_append_self (a pat b : List Char) : listInf pat (a ++ (pat ++ b)) = true := by
  induction a with
  | nil =>
      simp only [List.nil_append]
      cases hpb : pat ++ b with
      | nil =>
          have hp : pat = [] := by
            cases pat
            · rfl
            · simp at hpb
          rw [hp] at hpb ⊢
          simp [listInf, listHasPre]
      | cons c cs =>
          rw [← hpb]
          cases pat with
          | nil => simp [listInf, listHasPre, hpb]
          | cons p ps =>
              have : listHasPre (p :: ps) ((p :: ps) ++ b) = true := listHasPre_append _ _
              cases hppb : (p :: ps) ++ b with
              | nil => simp at hppb
              | cons x xs =>
                  rw [hppb] at this
                  simp [listInf, hppb, this]
  | cons c cs ih =>
      simp [listInf, ih]

theorem strContains_append_self (a pat b : String) :
    strContains (a ++ pat ++ b) pat = true := by
  have hdata : (a ++ pat ++ b).data = a.data ++ (pat.data ++ b.data) := by
    simp [String.data_append]
  simp [strContains, hdata, listInf_append_self]

/-- Loading the document written by the fresh `publish_article` path. -/
theorem from_dict_publish_write_any (d : Doc) (st : ArticleState) (hl : from_dict d = .ok st)
    (pid : Int) (link ti sl : String) (cats tagNames : List String) (now : Int)
    (hcur : asStrOrEmpty (getVal d "phase") ≠ Phase.PUBLISHED.value) :
    from_dict (update_article_fields d
        [("wp_post_id", .int pid), ("wp_post_url", .str link),
         ("wp_title", .str ti), ("wp_slug", .str sl),
         ("wp_categories", .strList cats), ("wp_tags", .strList tagNames)]
        (some .PUBLISHED) true now)
      = .ok { st with
          phase := .PUBLISHED,
          wp_post_id := some pid,
          wp_post_url := optStr (.str link),
          wp_title := optStr (.str ti),
          wp_slug := optStr (.str sl),
          wp_categories := cats,
          wp_tags := tagNames,
          updated_at := optStr (.str (now_jst_iso now)),
          phase_updated_at := optStr (.str (now_jst_iso now)) } := by
  obtain ⟨i1, i2, i3, i4, i5, i6, i7, i8, i9, i10, i11, i12, i13, i14, i15, i16, i17, i18,
    i19, i20, i21, i22, i23, i24, i25, i26, i27, i28, i29, i30, i31, i32, i33, i34⟩ :=
    from_dict_ok_inv d st hl
  simp [update_article_fields, from_dict, decodePhase, getVal_applyPatch,
    patchFind, patchFind_append, List.find?, bne, hcur, optInt,
    i1, i2, i3, i4, i5, i6, i7, i8, i9, i10, i11, i12, i13, i14, i15, i16, i17, i18,
    i19, i20, i21, i22, i23, i24, i25, i26, i27, i28, i29, i30, i31, i32, i33, i34]

/-- Loading the document written by the adopt branch of `publish_article`
when the stored phase already equals the requested one (no phase
stamp). -/
theorem from_dict_adopt_write_any (d : Doc) (st : ArticleState) (hl : from_dict d = .ok st)
    (pid : Int) (link : String) (now : Int)
    (hcur : asStrOrEmpty (getVal d "phase") = Phase.PUBLISHED.value) :
    from_dict (update_article_fields d
        [("wp_post_id", .int pid), ("wp_post_url", .str link)]
        (some .PUBLISHED) true now)
      = .ok { st with
          phase := .PUBLISHED,
          wp_post_id := some pid,
          wp_post_url := optStr (.str link),
          updated_at := optStr (.str (now_jst_iso now)) } := by
  obtain ⟨i1, i2, i3, i4, i5, i6, i7, i8, i9, i10, i11, i12, i13, i14, i15, i16, i17, i18,
    i19, i20, i21, i22, i23, i24, i25, i26, i27, i28, i29, i30, i31, i32, i33, i34⟩ :=
    from_dict_ok_inv d st hl
  simp [update_article_fields, from_dict, decodePhase, getVal_applyPatch,
    patchFind, patchFind_append, List.find?, bne, hcur, optInt,
    i1, i2, i3, i4, i5, i6, i7, i8, i9, i10, i11, i12, i13, i14, i15, i16, i17, i18,
    i19, i20, i21, i22, i23, i24, i25, i26, i27, i28, i29, i30, i31, i32, i33, i34]

/-- C1 counterexample: a stored record whose `phase` holds the non-empty
unrecognized string "LIMBO" does not load with phase `ERROR` — the
`Phase(...)` construction in `ArticleState.from_dict` raises and the load
fails. -/
theorem c1_counterexample :
    from_dict [("article_id", Val.str "ART-20240601-001"), ("phase", Val.str "LIMBO")]
      = .error (.valueError "LIMBO is not a valid Phase") := by decide

/-- C1 (amended): on load, an empty or missing `phase` maps to `ERROR`
and a recognized value maps to itself, but a non-empty unrecognized
`phase` string raises `ValueError` and the load fails entirely. -/
theorem c1_phase_decode_defensive_only_when_empty (d : Doc) :
    (pyStrip (asStrOrEmpty (getVal d "phase")) = "" → decodePhase d = .ok .ERROR) ∧
    (∀ p, Phase.fromString (pyStrip (asStrOrEmpty (getVal d "phase"))) = some p →
        decodePhase d = .ok p) ∧
    (pyStrip (asStrOrEmpty (getVal d "phase")) ≠ "" →
      Phase.fromString (pyStrip (asStrOrEmpty (getVal d "phase"))) = Option.none →
      from_dict d = .error (.valueError
        (pyStrip (asStrOrEmpty (getVal d "phase")) ++ " is not a valid Phase"))) := by
  refine ⟨fun h => by simp [decodePhase, h], fun p hp => ?_, fun h1 h2 => ?_⟩
  · by_cases hr : pyStrip (asStrOrEmpty (getVal d "phase")) = ""
    · rw [hr] at hp
      have hnone : Phase.fromString "" = Option.none := by decide
      rw [hnone] at hp
      cases hp
    · simp [decodePhase, hr, hp]
  · have hd : decodePhase d = .error (.valueError
        (pyStrip (asStrOrEmpty (getVal d "phase")) ++ " is not a valid Phase")) := by
      simp [decodePhase, h1, h2]
    simp [from_dict, hd]

/-- Witness for C1 (amended) at concrete records: an absent phase loads
as `ERROR`, and the "LIMBO" phase fails the load. -/
theorem c1_witness :
    (pyStrip (asStrOrEmpty (getVal ([("keyword", Val.str "k")] : Doc) "phase")) = "" ∧
      decodePhase [("keyword", Val.str "k")] = .ok .ERROR) ∧
    (pyStrip (asStrOrEmpty (getVal ([("phase", Val.str "LIMBO")] : Doc) "phase")) ≠ "" ∧
      Phase.fromString (pyStrip (asStrOrEmpty (getVal ([("phase", Val.str "LIMBO")] : Doc)
        "phase"))) = Option.none ∧
      from_dict [("phase", Val.str "LIMBO")] = .error (.valueError
        (pyStrip (asStrOrEmpty (getVal ([("phase", Val.str "LIMBO")] : Doc) "phase"))
          ++ " is not a valid Phase"))) :=
  ⟨⟨by decide, (c1_phase_decode_defensive_only_when_empty [("keyword", Val.str "k")]).1
      (by decide)⟩,
   ⟨by decide, by decide,
    (c1_phase_decode_defensive_only_when_empty [("phase", Val.str "LIMBO")]).2.2
      (by decide) (by decide)⟩⟩

/-- C2 (code bug): for every start-article trigger with a non-empty
keyword and a valid planned date, `start_article` raises `TypeError` at
the `generate_article_id(keyword=..., planned_date=...)` call — the
function's keyword-only parameters are `planned_date` and `seq` — so no
`ArticleState` record is ever created. -/
theorem c2_start_article_raises_type_error
    (keyword planned_date slack_channel_id : String)
    (snapshotRes : Except PyErr SDict) (now : Int)
    (hk : pyStrip keyword ≠ "") (hp : normalize_ymd planned_date ≠ "") :
    start_article keyword planned_date slack_channel_id snapshotRes now
      = .error (.typeError "generate_article_id() got an unexpected keyword argument") := by
  simp [start_article, hk, hp, generate_article_id_kwargs]

/-- Witness for C2 at the spec's own example inputs. -/
theorem c2_witness :
    pyStrip "高血圧" ≠ "" ∧ normalize_ymd "2024-06-01" ≠ "" ∧
    start_article "高血圧" "2024-06-01" "C1" (.ok []) 0
      = .error (.typeError "generate_article_id() got an unexpected keyword argument") :=
  ⟨by decide, by decide,
   c2_start_article_raises_type_error "高血圧" "2024-06-01" "C1" (.ok []) 0
     (by decide) (by decide)⟩

/-- C6: a RETRY after `retry_available_until` has elapsed posts only the
"expired" notification; the stored record is untouched and remains in
`ERROR`. -/
theorem c6_retry_expired_is_pure_notification
    (st : ArticleState) (h : st.normalizedB = true) (hph : st.phase = .ERROR)
    (u : String) (hu : st.retry_available_until = some u)
    (now : Int) (hexp : is_expired u now = true) (cfg : String) :
    retry (to_dict st) now cfg
      = { doc := to_dict st,
          posts := [⟨st.slack_channel_id, "期限切れです。", Option.none⟩],
          spawned := [] } ∧
    lookupVal (retry (to_dict st) now cfg).doc "phase" = some (.str "ERROR") := by
  have hload := from_dict_to_dict st h
  have hr : retry (to_dict st) now cfg
      = { doc := to_dict st,
          posts := [⟨st.slack_channel_id, "期限切れです。", Option.none⟩],
          spawned := [] } := by
    unfold retry
    rw [hload]
    show runStep cfg Phase.ERROR now (retryBody (to_dict st) st now) = _
    unfold retryBody
    rw [hu]
    show runStep cfg Phase.ERROR now
      (if is_expired u now then
        .ok { doc := to_dict st,
              posts := [⟨st.slack_channel_id, "期限切れです。", Option.none⟩], spawned := [] }
       else retryCheckPrev (to_dict st) st now) = _
    rw [hexp]
    rfl
  refine ⟨hr, ?_⟩
  rw [hr]
  simp [to_dict, hph]
  rfl

/-- Witness for C6 at a concrete errored record. -/
theorem c6_witness :
    ({ newArticleState "A1" "k" "2024-06-01" with
        phase := .ERROR, slack_channel_id := "C9",
        retry_available_until := some "5" } : ArticleState).normalizedB = true ∧
    is_expired "5" 9 = true ∧
    (retry (to_dict { newArticleState "A1" "k" "2024-06-01" with
        phase := .ERROR, slack_channel_id := "C9",
        retry_available_until := some "5" }) 9 "CFG"
      = { doc := to_dict { newArticleState "A1" "k" "2024-06-01" with
            phase := .ERROR, slack_channel_id := "C9",
            retry_available_until := some "5" },
          posts := [⟨"C9", "期限切れです。", Option.none⟩],
          spawned := [] } ∧
      lookupVal (retry (to_dict { newArticleState "A1" "k" "2024-06-01" with
          phase := .ERROR, slack_channel_id := "C9",
          retry_available_until := some "5" }) 9 "CFG").doc "phase"
        = some (.str "ERROR")) :=
  ⟨by decide, by decide,
   c6_retry_expired_is_pure_notification
     { newArticleState "A1" "k" "2024-06-01" with
         phase := .ERROR, slack_channel_id := "C9",
         retry_available_until := some "5" }
     (by decide) rfl "5" rfl 9 (by decide) "CFG"⟩

/-- C4 counterexample: a SelectCandidate with an id not in
`paper_candidates` does not leave the phase unchanged — the record moves
from `PAPER_REVIEW` to `ERROR` (with error fields recorded), because the
raised `PaperNotFound` is routed through `_handle_error`. -/
theorem c4_counterexample :
    lookupVal (to_dict { newArticleState "A1" "k" "2024-06-01" with
        phase := .PAPER_REVIEW, slack_channel_id := "C1",
        paper_candidates := [[("pmid", "111"), ("title", "t"), ("abstract", "a"),
          ("url", "u")]] }) "phase" = some (.str "PAPER_REVIEW") ∧
    lookupVal (select_paper (to_dict { newArticleState "A1" "k" "2024-06-01" with
        phase := .PAPER_REVIEW, slack_channel_id := "C1",
        paper_candidates := [[("pmid", "111"), ("title", "t"), ("abstract", "a"),
          ("url", "u")]] }) "999" 5 "CFG").doc "phase" = some (.str "ERROR") ∧
    lookupVal (select_paper (to_dict { newArticleState "A1" "k" "2024-06-01" with
        phase := .PAPER_REVIEW, slack_channel_id := "C1",
        paper_candidates := [[("pmid", "111"), ("title", "t"), ("abstract", "a"),
          ("url", "u")]] }) "999" 5 "CFG").doc "error_type"
      = some (.str "PaperNotFound") := by decide

/-- C4 (amended): a SelectCandidate whose id is not among the stored
candidates raises `PaperNotFound` and is routed to error handling: the
phase becomes `ERROR` with `error_prev_phase` `PAPER_REVIEW`, the error
fields and 7-day retry window are recorded and the fixed error message is
posted; every artifact field of the record is left unchanged and no work
is spawned. -/
theorem c4_select_unknown_candidate_routes_to_error
    (st : ArticleState) (h : st.normalizedB = true) (hph : st.phase = .PAPER_REVIEW)
    (pmid : String) (hsel : findSelectedCandidate st.paper_candidates (some pmid) = Option.none)
    (now : Int) (cfg : String) :
    (select_paper (to_dict st) pmid now cfg).doc
        = update_article_fields (to_dict st)
            (errorPatch .PAPER_REVIEW
              (.externalApi "PaperNotFound" ("pmid not found in candidates: " ++ pmid)) now)
            (some .ERROR) true now ∧
    lookupVal (select_paper (to_dict st) pmid now cfg).doc "phase" = some (.str "ERROR") ∧
    lookupVal (select_paper (to_dict st) pmid now cfg).doc "error_type"
        = some (.str "PaperNotFound") ∧
    lookupVal (select_paper (to_dict st) pmid now cfg).doc "error_prev_phase"
        = some (.str "PAPER_REVIEW") ∧
    lookupVal (select_paper (to_dict st) pmid now cfg).doc "error_message"
        = some (.str ("pmid not found in candidates: " ++ pmid)) ∧
    lookupVal (select_paper (to_dict st) pmid now cfg).doc "retry_available_until"
        = some (.str (add_days_jst_iso now 7)) ∧
    (select_paper (to_dict st) pmid now cfg).posts
        = [⟨st.slack_channel_id, errorUserMessage, Option.none⟩] ∧
    (select_paper (to_dict st) pmid now cfg).spawned = [] ∧
    (∀ k ∈ ["article_id", "keyword", "planned_date", "sheet_snapshot",
            "outline_text", "outline_feedback_text", "outline_revision_count",
            "pubmed_query", "paper_candidates", "selected_pmid",
            "paper_feedback_text", "paper_revision_count",
            "body_text", "body_feedback_text", "body_revision_count",
            "wp_post_id", "wp_post_url", "wp_title", "wp_slug",
            "wp_categories", "wp_tags", "created_at"],
      lookupVal (select_paper (to_dict st) pmid now cfg).doc k
        = lookupVal (to_dict st) k) := by
  have hload := from_dict_to_dict st h
  have hv : st.phase.value ≠ Phase.ERROR.value := by rw [hph]; decide
  have herr := from_dict_error_write st h .PAPER_REVIEW
    (.externalApi "PaperNotFound" ("pmid not found in candidates: " ++ pmid)) now hv
  have hr : select_paper (to_dict st) pmid now cfg
      = handleErrorWrite (to_dict st) st .PAPER_REVIEW
          (.externalApi "PaperNotFound" ("pmid not found in candidates: " ++ pmid)) now := by
    unfold select_paper
    rw [hload]
    show runStep cfg .PAPER_REVIEW now (select_paperBody (to_dict st) st pmid now) = _
    unfold select_paperBody
    rw [hsel]
    show runStep cfg .PAPER_REVIEW now (.error ((to_dict st),
      (.externalApi "PaperNotFound" ("pmid not found in candidates: " ++ pmid)))) = _
    rw [runStep_error, handleError_loaded cfg (to_dict st) st .PAPER_REVIEW _ now hload]
  rw [hr]
  simp only [handleErrorWrite, herr]
  simp [update_article_fields, errorPatch, toErrorFields, lookupVal_applyPatch,
    patchFind, patchFind_append, to_dict, getVal, List.find?, List.forall_mem_cons,
    bne, hv]
  exact ⟨rfl, rfl⟩

/-- Witness for C4 (amended) at a concrete record. -/
theorem c4_witness :
    ({ newArticleState "A1" "k" "2024-06-01" with
        phase := .PAPER_REVIEW, slack_channel_id := "C1",
        paper_candidates := [[("pmid", "111"), ("title", "t"), ("abstract", "a"),
          ("url", "u")]] } : ArticleState).normalizedB = true ∧
    findSelectedCandidate ({ newArticleState "A1" "k" "2024-06-01" with
        phase := .PAPER_REVIEW, slack_channel_id := "C1",
        paper_candidates := [[("pmid", "111"), ("title", "t"), ("abstract", "a"),
          ("url", "u")]] } : ArticleState).paper_candidates (some "999") = Option.none ∧
    lookupVal (select_paper (to_dict { newArticleState "A1" "k" "2024-06-01" with
        phase := .PAPER_REVIEW, slack_channel_id := "C1",
        paper_candidates := [[("pmid", "111"), ("title", "t"), ("abstract", "a"),
          ("url", "u")]] }) "999" 5 "CFG").doc "error_type" = some (.str "PaperNotFound") ∧
    (∀ k ∈ ["article_id", "keyword", "planned_date", "sheet_snapshot",
            "outline_text", "outline_feedback_text", "outline_revision_count",
            "pubmed_query", "paper_candidates", "selected_pmid",
            "paper_feedback_text", "paper_revision_count",
            "body_text", "body_feedback_text", "body_revision_count",
            "wp_post_id", "wp_post_url", "wp_title", "wp_slug",
            "wp_categories", "wp_tags", "created_at"],
      lookupVal (select_paper (to_dict { newArticleState "A1" "k" "2024-06-01" with
          phase := .PAPER_REVIEW, slack_channel_id := "C1",
          paper_candidates := [[("pmid", "111"), ("title", "t"), ("abstract", "a"),
            ("url", "u")]] }) "999" 5 "CFG").doc k
        = lookupVal (to_dict { newArticleState "A1" "k" "2024-06-01" with
            phase := .PAPER_REVIEW, slack_channel_id := "C1",
            paper_candidates := [[("pmid", "111"), ("title", "t"), ("abstract", "a"),
              ("url", "u")]] }) k) :=
  ⟨by decide, by decide,
   (c4_select_unknown_candidate_routes_to_error
      { newArticleState "A1" "k" "2024-06-01" with
          phase := .PAPER_REVIEW, slack_channel_id := "C1",
          paper_candidates := [[("pmid", "111"), ("title", "t"), ("abstract", "a"),
            ("url", "u")]] }
      (by decide) rfl "999" (by decide) 5 "CFG").2.2.1,
   (c4_select_unknown_candidate_routes_to_error
      { newArticleState "A1" "k" "2024-06-01" with
          phase := .PAPER_REVIEW, slack_channel_id := "C1",
          paper_candidates := [[("pmid", "111"), ("title", "t"), ("abstract", "a"),
            ("url", "u")]] }
      (by decide) rfl "999" (by decide) 5 "CFG").2.2.2.2.2.2.2.2⟩

/-- C3 (code bug): for every article that reached `BODY_GENERATING`
through a successful SelectCandidate (which stores the picked candidate
under the `selected_paper` document key), `generate_body` does not store
the generated body and advance to `BODY_REVIEW` — whatever the
Generation backend would answer, the handler first reads
`state.selected_paper`, an attribute `ArticleState` does not define, so
it raises `AttributeError` and routes to `ERROR` with error type
`UnknownError` and prev-phase `BODY_GENERATING`; `body_text` is left
unchanged. -/
theorem c3_generate_body_always_attribute_errors
    (st : ArticleState) (h : st.normalizedB = true) (hph : st.phase = .PAPER_REVIEW)
    (pmid : String) (sel : SDict)
    (hsel : findSelectedCandidate st.paper_candidates (some pmid) = some sel)
    (now now2 : Int) (bodyRes : Except PyErr String) (cfg : String) :
    (select_paper (to_dict st) pmid now cfg).spawned = [.genBody] ∧
    lookupVal (select_paper (to_dict st) pmid now cfg).doc "phase"
        = some (.str "BODY_GENERATING") ∧
    lookupVal (select_paper (to_dict st) pmid now cfg).doc "selected_paper"
        = some (.dict sel) ∧
    lookupVal (generate_body (select_paper (to_dict st) pmid now cfg).doc
        bodyRes now2 cfg).doc "phase" = some (.str "ERROR") ∧
    lookupVal (generate_body (select_paper (to_dict st) pmid now cfg).doc
        bodyRes now2 cfg).doc "error_type" = some (.str "UnknownError") ∧
    lookupVal (generate_body (select_paper (to_dict st) pmid now cfg).doc
        bodyRes now2 cfg).doc "error_prev_phase" = some (.str "BODY_GENERATING") ∧
    lookupVal (generate_body (select_paper (to_dict st) pmid now cfg).doc
        bodyRes now2 cfg).doc "body_text"
      = lookupVal (select_paper (to_dict st) pmid now cfg).doc "body_text" := by
  have hload := from_dict_to_dict st h
  have hcur1 : asStrOrEmpty (getVal (to_dict st) "phase") ≠ Phase.BODY_GENERATING.value := by
    simp [to_dict, getVal, List.find?, hph]
    decide
  have hsw := from_dict_select_write_any (to_dict st) st hload pmid sel now hcur1
  have hcur2 : asStrOrEmpty (getVal (update_article_fields (to_dict st)
      [("selected_pmid", Val.str pmid), ("selected_paper", Val.dict sel),
       ("slack_revision_thread_ts", Val.none)]
      (some .BODY_GENERATING) true now) "phase") ≠ Phase.ERROR.value := by
    simp [update_article_fields, getVal_applyPatch, patchFind, patchFind_append,
      bne, hcur1]
    decide
  have herr2 := from_dict_error_write_any _ _ hsw .BODY_GENERATING
    (.attributeError "ArticleState object has no attribute selected_paper") now2 hcur2
  simp only [select_paper, hload, select_paperBody, hsel, hsw, runStep_ok]
  simp only [generate_body, hsw, generate_bodyBody, runStep_error]
  rw [handleError_loaded _ _ _ _ _ _ hsw]
  simp only [handleErrorWrite, herr2]
  simp [update_article_fields, errorPatch, toErrorFields, lookupVal_applyPatch,
    patchFind, patchFind_append, to_dict, getVal, List.find?, bne, hph, Phase.value]

/-- Witness for C3 at a concrete selected article. -/
theorem c3_witness :
    ({ newArticleState "A3" "k" "2024-06-01" with
        phase := .PAPER_REVIEW, slack_channel_id := "C3",
        outline_text := some "o",
        paper_candidates := [[("pmid", "111"), ("title", "t"), ("abstract", "a"),
          ("url", "u")]] } : ArticleState).normalizedB = true ∧
    findSelectedCandidate ({ newArticleState "A3" "k" "2024-06-01" with
        phase := .PAPER_REVIEW, slack_channel_id := "C3",
        outline_text := some "o",
        paper_candidates := [[("pmid", "111"), ("title", "t"), ("abstract", "a"),
          ("url", "u")]] } : ArticleState).paper_candidates (some "111")
      = some [("pmid", "111"), ("title", "t"), ("abstract", "a"), ("url", "u")] ∧
    lookupVal (generate_body (select_paper (to_dict
        { newArticleState "A3" "k" "2024-06-01" with
            phase := .PAPER_REVIEW, slack_channel_id := "C3",
            outline_text := some "o",
            paper_candidates := [[("pmid", "111"), ("title", "t"), ("abstract", "a"),
              ("url", "u")]] }) "111" 5 "CFG").doc (.ok "generated body") 6 "CFG").doc "phase"
      = some (.str "ERROR") ∧
    lookupVal (generate_body (select_paper (to_dict
        { newArticleState "A3" "k" "2024-06-01" with
            phase := .PAPER_REVIEW, slack_channel_id := "C3",
            outline_text := some "o",
            paper_candidates := [[("pmid", "111"), ("title", "t"), ("abstract", "a"),
              ("url", "u")]] }) "111" 5 "CFG").doc (.ok "generated body") 6 "CFG").doc
        "error_type" = some (.str "UnknownError") :=
  ⟨by decide, by decide,
   (c3_generate_body_always_attribute_errors
      { newArticleState "A3" "k" "2024-06-01" with
          phase := .PAPER_REVIEW, slack_channel_id := "C3",
          outline_text := some "o",
          paper_candidates := [[("pmid", "111"), ("title", "t"), ("abstract", "a"),
            ("url", "u")]] }
      (by decide) rfl "111" [("pmid", "111"), ("title", "t"), ("abstract", "a"), ("url", "u")]
      (by decide) 5 6 (.ok "generated body") "CFG").2.2.2.1,
   (c3_generate_body_always_attribute_errors
      { newArticleState "A3" "k" "2024-06-01" with
          phase := .PAPER_REVIEW, slack_channel_id := "C3",
          outline_text := some "o",
          paper_candidates := [[("pmid", "111"), ("title", "t"), ("abstract", "a"),
            ("url", "u")]] }
      (by decide) rfl "111" [("pmid", "111"), ("title", "t"), ("abstract", "a"), ("url", "u")]
      (by decide) 5 6 (.ok "generated body") "CFG").2.2.2.2.1⟩

set_option maxHeartbeats 1600000 in
/-- C9: revision counts start at 0 (the dataclass defaults), each
ReceiveFeedback increments its stage's stored count by exactly 1, and a
RequestRevision at a count ≥ 3 never opens a feedback thread: outline
and body route to `FINAL_REVIEW` with the thread marker cleared, while
the paper stage posts a pick-from-existing-candidates message and
changes nothing. -/
theorem c9_revision_count_discipline
    (a k p : String) (st : ArticleState) (h : st.normalizedB = true)
    (fb ts : String) (now : Int) (cfg : String) :
    ((newArticleState a k p).outline_revision_count = 0 ∧
     (newArticleState a k p).paper_revision_count = 0 ∧
     (newArticleState a k p).body_revision_count = 0) ∧
    (st.phase = .OUTLINE_WAITING_FEEDBACK →
      lookupVal (receive_outline_feedback (to_dict st) fb now cfg).doc
          "outline_revision_count" = some (.int (st.outline_revision_count + 1))) ∧
    (st.phase = .PAPER_WAITING_FEEDBACK →
      lookupVal (receive_paper_feedback (to_dict st) fb now cfg).doc
          "paper_revision_count" = some (.int (st.paper_revision_count + 1))) ∧
    (st.phase = .BODY_WAITING_FEEDBACK →
      lookupVal (receive_body_feedback (to_dict st) fb now cfg).doc
          "body_revision_count" = some (.int (st.body_revision_count + 1))) ∧
    (st.phase = .OUTLINE_REVIEW → 3 ≤ st.outline_revision_count →
      request_outline_revision (to_dict st) ts now cfg
        = { doc := update_article_fields (to_dict st) [("slack_revision_thread_ts", Val.none)]
              (some .FINAL_REVIEW) true now,
            posts := [⟨st.slack_channel_id,
                       "修正回数が上限に達しました。破棄または承認を選択してください。", Option.none⟩],
            spawned := [] } ∧
      lookupVal (request_outline_revision (to_dict st) ts now cfg).doc "phase"
        = some (.str "FINAL_REVIEW") ∧
      lookupVal (request_outline_revision (to_dict st) ts now cfg).doc
          "slack_revision_thread_ts" = some Val.none) ∧
    (3 ≤ st.paper_revision_count →
      request_paper_revision (to_dict st) ts now cfg
        = { doc := to_dict st,
            posts := [⟨st.slack_channel_id,
                       "論文検索の修正は上限に達しました。候補から選択してください。", Option.none⟩],
            spawned := [] }) ∧
    (st.phase = .BODY_REVIEW → 3 ≤ st.body_revision_count →
      request_body_revision (to_dict st) ts now cfg
        = { doc := update_article_fields (to_dict st) [("slack_revision_thread_ts", Val.none)]
              (some .FINAL_REVIEW) true now,
            posts := [⟨st.slack_channel_id,
                       "修正回数が上限に達しました。破棄または承認を選択してください。", Option.none⟩],
            spawned := [] } ∧
      lookupVal (request_body_revision (to_dict st) ts now cfg).doc "phase"
        = some (.str "FINAL_REVIEW") ∧
      lookupVal (request_body_revision (to_dict st) ts now cfg).doc
          "slack_revision_thread_ts" = some Val.none) := by
  have hload := from_dict_to_dict st h
  refine ⟨⟨rfl, rfl, rfl⟩, ?_, ?_, ?_, ?_, ?_, ?_⟩
  · intro hph
    have hcur : asStrOrEmpty (getVal (to_dict st) "phase")
        ≠ Phase.OUTLINE_GENERATING.value := by
      simp [to_dict, getVal, List.find?, hph]
      decide
    have hfw := from_dict_outline_feedback_write_any (to_dict st) st hload fb
      (st.outline_revision_count + 1) now hcur
    simp only [receive_outline_feedback, hload, receive_outline_feedbackBody, hfw, runStep_ok]
    simp [update_article_fields, lookupVal_applyPatch, patchFind, patchFind_append,
      to_dict, getVal, List.find?, bne, hph, Phase.value]
  · intro hph
    have hcur : asStrOrEmpty (getVal (to_dict st) "phase")
        ≠ Phase.PAPER_SEARCHING.value := by
      simp [to_dict, getVal, List.find?, hph]
      decide
    have hfw := from_dict_paper_feedback_write_any (to_dict st) st hload fb
      (st.paper_revision_count + 1) now hcur
    simp only [receive_paper_feedback, hload, receive_paper_feedbackBody, hfw, runStep_ok]
    simp [update_article_fields, lookupVal_applyPatch, patchFind, patchFind_append,
      to_dict, getVal, List.find?, bne, hph, Phase.value]
  · intro hph
    have hcur : asStrOrEmpty (getVal (to_dict st) "phase")
        ≠ Phase.BODY_GENERATING.value := by
      simp [to_dict, getVal, List.find?, hph]
      decide
    have hfw := from_dict_body_feedback_write_any (to_dict st) st hload fb
      (st.body_revision_count + 1) now hcur
    simp only [receive_body_feedback, hload, receive_body_feedbackBody, hfw, runStep_ok]
    simp [update_article_fields, lookupVal_applyPatch, patchFind, patchFind_append,
      to_dict, getVal, List.find?, bne, hph, Phase.value]
  · intro hph h3
    have hcur : asStrOrEmpty (getVal (to_dict st) "phase")
        ≠ Phase.FINAL_REVIEW.value := by
      simp [to_dict, getVal, List.find?, hph]
      decide
    have htw := from_dict_thread_write_any (to_dict st) st hload Val.none .FINAL_REVIEW
      now hcur
    have hreq : request_outline_revision (to_dict st) ts now cfg
        = { doc := update_article_fields (to_dict st) [("slack_revision_thread_ts", Val.none)]
              (some .FINAL_REVIEW) true now,
            posts := [⟨st.slack_channel_id,
                       "修正回数が上限に達しました。破棄または承認を選択してください。", Option.none⟩],
            spawned := [] } := by
      simp only [request_outline_revision, hload, request_outline_revisionBody]
      rw [if_pos h3]
      simp only [htw, runStep_ok]
    refine ⟨hreq, ?_, ?_⟩ <;>
      rw [hreq] <;>
      simp [update_article_fields, lookupVal_applyPatch, patchFind, patchFind_append,
        to_dict, getVal, List.find?, bne, hph, Phase.value]
  · intro h3
    simp only [request_paper_revision, hload, request_paper_revisionBody]
    rw [if_pos h3]
    rfl
  · intro hph h3
    have hcur : asStrOrEmpty (getVal (to_dict st) "phase")
        ≠ Phase.FINAL_REVIEW.value := by
      simp [to_dict, getVal, List.find?, hph]
      decide
    have htw := from_dict_thread_write_any (to_dict st) st hload Val.none .FINAL_REVIEW
      now hcur
    have hreq : request_body_revision (to_dict st) ts now cfg
        = { doc := update_article_fields (to_dict st) [("slack_revision_thread_ts", Val.none)]
              (some .FINAL_REVIEW) true now,
            posts := [⟨st.slack_channel_id,
                       "修正回数が上限に達しました。破棄または承認を選択してください。", Option.none⟩],
            spawned := [] } := by
      simp only [request_body_revision, hload, request_body_revisionBody]
      rw [if_pos h3]
      simp only [htw, runStep_ok]
    refine ⟨hreq, ?_, ?_⟩ <;>
      rw [hreq] <;>
      simp [update_article_fields, lookupVal_applyPatch, patchFind, patchFind_append,
        to_dict, getVal, List.find?, bne, hph, Phase.value]

/-- Witness for C9 at a concrete record with both ceilings reached. -/
theorem c9_witness :
    ({ newArticleState "A9" "k" "2024-06-01" with
        phase := .OUTLINE_REVIEW, slack_channel_id := "CH9",
        outline_revision_count := 3, paper_revision_count := 3 } : ArticleState).normalizedB
      = true ∧
    (3 : Int) ≤ ({ newArticleState "A9" "k" "2024-06-01" with
        phase := .OUTLINE_REVIEW, slack_channel_id := "CH9",
        outline_revision_count := 3,
        paper_revision_count := 3 } : ArticleState).outline_revision_count ∧
    lookupVal (request_outline_revision (to_dict
        { newArticleState "A9" "k" "2024-06-01" with
            phase := .OUTLINE_REVIEW, slack_channel_id := "CH9",
            outline_revision_count := 3, paper_revision_count := 3 }) "160.5" 7 "CFG").doc
        "phase" = some (.str "FINAL_REVIEW") ∧
    lookupVal (request_outline_revision (to_dict
        { newArticleState "A9" "k" "2024-06-01" with
            phase := .OUTLINE_REVIEW, slack_channel_id := "CH9",
            outline_revision_count := 3, paper_revision_count := 3 }) "160.5" 7 "CFG").doc
        "slack_revision_thread_ts" = some Val.none ∧
    request_paper_revision (to_dict
        { newArticleState "A9" "k" "2024-06-01" with
            phase := .OUTLINE_REVIEW, slack_channel_id := "CH9",
            outline_revision_count := 3, paper_revision_count := 3 }) "160.5" 7 "CFG"
      = { doc := to_dict { newArticleState "A9" "k" "2024-06-01" with
              phase := .OUTLINE_REVIEW, slack_channel_id := "CH9",
              outline_revision_count := 3, paper_revision_count := 3 },
          posts := [⟨"CH9", "論文検索の修正は上限に達しました。候補から選択してください。", Option.none⟩],
          spawned := [] } :=
  ⟨by decide, by decide,
   ((c9_revision_count_discipline "A9" "k" "2024-06-01"
      { newArticleState "A9" "k" "2024-06-01" with
          phase := .OUTLINE_REVIEW, slack_channel_id := "CH9",
          outline_revision_count := 3, paper_revision_count := 3 }
      (by decide) "fb" "160.5" 7 "CFG").2.2.2.2.1 rfl (by decide)).2.1,
   ((c9_revision_count_discipline "A9" "k" "2024-06-01"
      { newArticleState "A9" "k" "2024-06-01" with
          phase := .OUTLINE_REVIEW, slack_channel_id := "CH9",
          outline_revision_count := 3, paper_revision_count := 3 }
      (by decide) "fb" "160.5" 7 "CFG").2.2.2.2.1 rfl (by decide)).2.2,
   (c9_revision_count_discipline "A9" "k" "2024-06-01"
      { newArticleState "A9" "k" "2024-06-01" with
          phase := .OUTLINE_REVIEW, slack_channel_id := "CH9",
          outline_revision_count := 3, paper_revision_count := 3 }
      (by decide) "fb" "160.5" 7 "CFG").2.2.2.2.2.1 (by decide)⟩

/-- C5 counterexample: a RETRY within the window whose recorded
prev-phase is the unrecognized string "BOGUS_PHASE", on a record whose
`body_text` is populated, does not resume at the furthest-advanced stage
(publishing): the code falls back to `OUTLINE_GENERATING` and spawns
outline generation. -/
theorem c5_counterexample :
    lookupVal (retry (to_dict { newArticleState "A5" "k" "2024-06-01" with
        phase := .ERROR, slack_channel_id := "C5",
        outline_text := some "o", selected_pmid := some "111", body_text := some "b",
        error_prev_phase := some "BOGUS_PHASE", error_type := some "X",
        error_message := some "m", error_user_message := some "u",
        error_occurred_at := some "0", retry_available_until := some "100" }) 1 "CFG").doc
      "phase" = some (.str "OUTLINE_GENERATING") ∧
    (retry (to_dict { newArticleState "A5" "k" "2024-06-01" with
        phase := .ERROR, slack_channel_id := "C5",
        outline_text := some "o", selected_pmid := some "111", body_text := some "b",
        error_prev_phase := some "BOGUS_PHASE", error_type := some "X",
        error_message := some "m", error_user_message := some "u",
        error_occurred_at := some "0", retry_available_until := some "100" }) 1 "CFG").spawned
      = [.genOutline] := by decide

set_option maxHeartbeats 3200000 in
/-- C5 (amended): a RETRY within the window with a recorded prev-phase
clears all six error fields and posts nothing; when the prev-phase is one
of the four working phases it restores that phase and re-triggers that
stage's unit of work, and when the prev-phase string is unrecognized the
phase is reset to `OUTLINE_GENERATING` and outline generation is
re-triggered (not the artifact-based furthest-advanced stage). -/
theorem c5_retry_resume_behaviour
    (st : ArticleState) (h : st.normalizedB = true) (hph : st.phase = .ERROR)
    (u : String) (hu : st.retry_available_until = some u)
    (now : Int) (hexp : is_expired u now = false)
    (raw : String) (hprev : st.error_prev_phase = some raw) (cfg : String) :
    (Phase.fromString raw = some .OUTLINE_GENERATING →
      lookupVal (retry (to_dict st) now cfg).doc "phase" = some (.str "OUTLINE_GENERATING") ∧
      lookupVal (retry (to_dict st) now cfg).doc "error_prev_phase" = Option.none ∧
      lookupVal (retry (to_dict st) now cfg).doc "error_type" = Option.none ∧
      lookupVal (retry (to_dict st) now cfg).doc "error_message" = Option.none ∧
      lookupVal (retry (to_dict st) now cfg).doc "error_user_message" = Option.none ∧
      lookupVal (retry (to_dict st) now cfg).doc "error_occurred_at" = Option.none ∧
      lookupVal (retry (to_dict st) now cfg).doc "retry_available_until" = Option.none ∧
      (retry (to_dict st) now cfg).posts = [] ∧
      (retry (to_dict st) now cfg).spawned = [.genOutline]) ∧
    (Phase.fromString raw = some .PAPER_SEARCHING →
      lookupVal (retry (to_dict st) now cfg).doc "phase" = some (.str "PAPER_SEARCHING") ∧
      lookupVal (retry (to_dict st) now cfg).doc "error_prev_phase" = Option.none ∧
      (retry (to_dict st) now cfg).spawned = [.searchPapers]) ∧
    (Phase.fromString raw = some .BODY_GENERATING →
      lookupVal (retry (to_dict st) now cfg).doc "phase" = some (.str "BODY_GENERATING") ∧
      lookupVal (retry (to_dict st) now cfg).doc "error_prev_phase" = Option.none ∧
      (retry (to_dict st) now cfg).spawned = [.genBody]) ∧
    (Phase.fromString raw = some .PUBLISHING →
      lookupVal (retry (to_dict st) now cfg).doc "phase" = some (.str "PUBLISHING") ∧
      lookupVal (retry (to_dict st) now cfg).doc "error_prev_phase" = Option.none ∧
      (retry (to_dict st) now cfg).spawned = [.publishArticle]) ∧
    (Phase.fromString raw = Option.none →
      lookupVal (retry (to_dict st) now cfg).doc "phase" = some (.str "OUTLINE_GENERATING") ∧
      lookupVal (retry (to_dict st) now cfg).doc "error_prev_phase" = Option.none ∧
      (retry (to_dict st) now cfg).posts = [] ∧
      (retry (to_dict st) now cfg).spawned = [.genOutline]) := by
  have hload := from_dict_to_dict st h
  have hn := (normalizedB_fields st h).2.2.2.2.2.2.2.2.2.2.2.2.1
  rw [hprev] at hn
  simp only [normStr, Bool.and_eq_true, beq_iff_eq, bne_iff_ne, ne_eq] at hn
  have hraweq : (raw == "") = false := by
    simp [hn.2]
  have hpre : retry (to_dict st) now cfg
      = runStep cfg .ERROR now (retryResume (to_dict st) raw now) := by
    unfold retry
    rw [hload]
    show runStep cfg .ERROR now (retryBody (to_dict st) st now) = _
    unfold retryBody
    rw [hu]
    show runStep cfg .ERROR now
      (if is_expired u now then
        .ok { doc := to_dict st,
              posts := [⟨st.slack_channel_id, "期限切れです。", Option.none⟩], spawned := [] }
       else retryCheckPrev (to_dict st) st now) = _
    rw [hexp]
    show runStep cfg .ERROR now (retryCheckPrev (to_dict st) st now) = _
    unfold retryCheckPrev
    rw [hprev]
    simp only [Option.getD_some]
    have hraw' : ¬ ((raw == "") = true) := by simp [hn.2]
    rw [hn.1, if_neg hraw']
  have hcur : ∀ q : Phase, q ≠ Phase.ERROR →
      asStrOrEmpty (getVal (to_dict st) "phase") ≠ q.value := by
    intro q hq
    have : asStrOrEmpty (getVal (to_dict st) "phase") = st.phase.value := by
      simp [to_dict, getVal, List.find?]
    rw [this, hph]
    intro hvq
    apply hq
    cases q <;> first | rfl | exact absurd hvq (by decide)
  refine ⟨?_, ?_, ?_, ?_, ?_⟩
  · intro hA
    have hld := from_dict_clear_error_phase_any (to_dict st) st hload .OUTLINE_GENERATING
      now (hcur _ (by decide))
    rw [hpre]
    simp only [retryResume, hA, hld, runStep_ok]
    simp [retryWork, update_article_fields, clear_error, lookupVal_applyPatch,
      patchFind, patchFind_append, to_dict, getVal, List.find?, bne, hph, Phase.value]
  · intro hA
    have hld := from_dict_clear_error_phase_any (to_dict st) st hload .PAPER_SEARCHING
      now (hcur _ (by decide))
    rw [hpre]
    simp only [retryResume, hA, hld, runStep_ok]
    simp [retryWork, update_article_fields, clear_error, lookupVal_applyPatch,
      patchFind, patchFind_append, to_dict, getVal, List.find?, bne, hph, Phase.value]
  · intro hA
    have hld := from_dict_clear_error_phase_any (to_dict st) st hload .BODY_GENERATING
      now (hcur _ (by decide))
    rw [hpre]
    simp only [retryResume, hA, hld, runStep_ok]
    simp [retryWork, update_article_fields, clear_error, lookupVal_applyPatch,
      patchFind, patchFind_append, to_dict, getVal, List.find?, bne, hph, Phase.value]
  · intro hA
    have hld := from_dict_clear_error_phase_any (to_dict st) st hload .PUBLISHING
      now (hcur _ (by decide))
    rw [hpre]
    simp only [retryResume, hA, hld, runStep_ok]
    simp [retryWork, update_article_fields, clear_error, lookupVal_applyPatch,
      patchFind, patchFind_append, to_dict, getVal, List.find?, bne, hph, Phase.value]
  · intro hB
    have hld := from_dict_clear_error_phase_any (to_dict st) st hload .OUTLINE_GENERATING
      now (hcur _ (by decide))
    rw [hpre]
    simp only [retryResume, hB, hld, runStep_ok]
    simp [retryWork, update_article_fields, clear_error, lookupVal_applyPatch,
      patchFind, patchFind_append, to_dict, getVal, List.find?, bne, hph, Phase.value]

/-- Witness for C5 at a concrete errored record resuming into
`PUBLISHING`. -/
theorem c5_witness :
    ({ newArticleState "A5w" "k" "2024-06-01" with
        phase := .ERROR, slack_channel_id := "C5w", body_text := some "b",
        error_prev_phase := some "PUBLISHING", error_type := some "X",
        error_message := some "m", error_user_message := some "u",
        error_occurred_at := some "0",
        retry_available_until := some "100" } : ArticleState).normalizedB = true ∧
    is_expired "100" 1 = false ∧
    Phase.fromString "PUBLISHING" = some .PUBLISHING ∧
    (lookupVal (retry (to_dict { newArticleState "A5w" "k" "2024-06-01" with
        phase := .ERROR, slack_channel_id := "C5w", body_text := some "b",
        error_prev_phase := some "PUBLISHING", error_type := some "X",
        error_message := some "m", error_user_message := some "u",
        error_occurred_at := some "0",
        retry_available_until := some "100" }) 1 "CFG").doc "phase"
        = some (.str "PUBLISHING") ∧
     lookupVal (retry (to_dict { newArticleState "A5w" "k" "2024-06-01" with
        phase := .ERROR, slack_channel_id := "C5w", body_text := some "b",
        error_prev_phase := some "PUBLISHING", error_type := some "X",
        error_message := some "m", error_user_message := some "u",
        error_occurred_at := some "0",
        retry_available_until := some "100" }) 1 "CFG").doc "error_prev_phase"
        = Option.none ∧
     (retry (to_dict { newArticleState "A5w" "k" "2024-06-01" with
        phase := .ERROR, slack_channel_id := "C5w", body_text := some "b",
        error_prev_phase := some "PUBLISHING", error_type := some "X",
        error_message := some "m", error_user_message := some "u",
        error_occurred_at := some "0",
        retry_available_until := some "100" }) 1 "CFG").spawned = [.publishArticle]) :=
  ⟨by decide, by decide, by decide,
   (c5_retry_resume_behaviour
      { newArticleState "A5w" "k" "2024-06-01" with
          phase := .ERROR, slack_channel_id := "C5w", body_text := some "b",
          error_prev_phase := some "PUBLISHING", error_type := some "X",
          error_message := some "m", error_user_message := some "u",
          error_occurred_at := some "0", retry_available_until := some "100" }
      (by decide) rfl "100" rfl 1 (by decide) "PUBLISHING" rfl "CFG").2.2.2.1 (by decide)⟩

theorem efetchPapers_pmid_nonempty (raws : List RawArticle) :
    ∀ p ∈ efetchPapers raws, p.pmid ≠ "" := by
  induction raws with
  | nil => intro p hp; cases hp
  | cons a rs ih =>
      intro p hp
      simp only [efetchPapers, List.foldr_cons] at hp
      by_cases hg : pyStrip (a.pmidText.getD "") = ""
      · rw [if_pos (by simp [hg])] at hp
        exact ih p hp
      · rw [if_neg (by simp [hg])] at hp
        rcases List.mem_cons.mp hp with h1 | h2
        · rw [h1]
          exact hg
        · exact ih p h2

theorem fetch_top_abstracts_ok (q : String) (retmax : Nat) (ids : List String)
    (count : Option Int) (raws : List RawArticle) (papers : List PubMedPaper)
    (hf : fetch_top_abstracts q retmax ids count raws = .ok papers) :
    papers.length ≤ retmax ∧ ∀ p ∈ papers, p.pmid ≠ "" := by
  unfold fetch_top_abstracts at hf
  by_cases h1 : pyStrip q = ""
  · rw [if_pos (by simp [h1])] at hf
    cases hf
  · rw [if_neg (by simp [h1])] at hf
    split at hf
    · cases hf
    · split at hf
      · cases hf
      · revert hf
        cases hef : efetch_abstracts raws with
        | error e => intro hf; cases hf
        | ok ps =>
            intro hf
            cases hf
            have hps : ps = efetchPapers raws := by
              unfold efetch_abstracts at hef
              split at hef
              · cases hef
              · cases hef
                rfl
            constructor
            · exact List.length_take_le retmax ps
            · intro p hp
              rw [hps] at hp
              exact efetchPapers_pmid_nonempty raws p (List.mem_of_mem_take hp)

/-- Loading the document written by the `search_papers` success path. -/
theorem from_dict_search_write_any (d : Doc) (st : ArticleState) (hl : from_dict d = .ok st)
    (q : String) (cands : List SDict) (now : Int)
    (hcur : asStrOrEmpty (getVal d "phase") ≠ Phase.PAPER_REVIEW.value) :
    from_dict (update_article_fields d
        [("pubmed_query", .str q), ("paper_candidates", .dictList cands),
         ("paper_feedback_text", Val.none), ("selected_pmid", Val.none),
         ("slack_revision_thread_ts", Val.none)]
        (some .PAPER_REVIEW) true now)
      = .ok { st with
          phase := .PAPER_REVIEW,
          pubmed_query := optStr (.str q),
          paper_candidates := cands,
          paper_feedback_text := Option.none,
          selected_pmid := Option.none,
          slack_revision_thread_ts := Option.none,
          updated_at := optStr (.str (now_jst_iso now)),
          phase_updated_at := optStr (.str (now_jst_iso now)) } := by
  obtain ⟨i1, i2, i3, i4, i5, i6, i7, i8, i9, i10, i11, i12, i13, i14, i15, i16, i17, i18,
    i19, i20, i21, i22, i23, i24, i25, i26, i27, i28, i29, i30, i31, i32, i33, i34⟩ :=
    from_dict_ok_inv d st hl
  simp [update_article_fields, from_dict, decodePhase, getVal_applyPatch,
    patchFind, patchFind_append, List.find?, bne, hcur,
    i1, i2, i3, i4, i5, i6, i7, i8, i9, i10, i11, i12, i13, i14, i15, i16, i17, i18,
    i19, i20, i21, i22, i23, i24, i25, i26, i27, i28, i29, i30, i31, i32, i33, i34]

/-- C10: after a successful paper search, the stored `paper_candidates`
list has at most 3 entries, and every stored candidate dict carries a
non-empty `pmid` together with `title`, `abstract` and `url` fields. -/
theorem c10_search_candidates_invariant
    (st : ArticleState) (h : st.normalizedB = true) (hph : st.phase = .PAPER_SEARCHING)
    (q : String) (ids : List String) (count : Option Int) (raws : List RawArticle)
    (papers : List PubMedPaper)
    (hf : fetch_top_abstracts q 3 ids count raws = .ok papers)
    (now : Int) (cfg : String) :
    lookupVal (search_papers (to_dict st) (.ok q) ids count raws now cfg).doc
        "paper_candidates" = some (.dictList (papers.map PubMedPaper.to_dict)) ∧
    (papers.map PubMedPaper.to_dict).length ≤ 3 ∧
    ∀ c ∈ papers.map PubMedPaper.to_dict,
      dictGetStr c "pmid" ≠ "" ∧
      (List.find? (fun kv => kv.1 == "pmid") c).isSome = true ∧
      (List.find? (fun kv => kv.1 == "title") c).isSome = true ∧
      (List.find? (fun kv => kv.1 == "abstract") c).isSome = true ∧
      (List.find? (fun kv => kv.1 == "url") c).isSome = true := by
  have hload := from_dict_to_dict st h
  have hcur : asStrOrEmpty (getVal (to_dict st) "phase") ≠ Phase.PAPER_REVIEW.value := by
    simp [to_dict, getVal, List.find?, hph]
    decide
  have hsw := from_dict_search_write_any (to_dict st) st hload q
    (papers.map PubMedPaper.to_dict) now hcur
  obtain ⟨hlen, hpm⟩ := fetch_top_abstracts_ok q 3 ids count raws papers hf
  refine ⟨?_, ?_, ?_⟩
  · simp only [search_papers, hload, search_papersBody, hf, hsw, runStep_ok]
    simp [update_article_fields, lookupVal_applyPatch, patchFind, patchFind_append,
      to_dict, getVal, List.find?, bne, hph, Phase.value]
  · simpa using hlen
  · intro c hc
    obtain ⟨p, hp, hcp⟩ := List.mem_map.mp hc
    rw [← hcp]
    refine ⟨?_, rfl, rfl, rfl, rfl⟩
    show p.pmid ≠ ""
    exact hpm p hp

/-- Witness for C10 at a concrete search result. -/
theorem c10_witness :
    ({ newArticleState "A10" "k" "2024-06-01" with
        phase := .PAPER_SEARCHING, slack_channel_id := "C10",
        outline_text := some "o" } : ArticleState).normalizedB = true ∧
    fetch_top_abstracts "hypertension review" 3 ["111"] (some 5)
        [{ pmidText := some "111", titleText := some "T", absTexts := [some "A"] }]
      = .ok [{ pmid := "111", title := "T", abstract := "A",
               url := "https://pubmed.ncbi.nlm.nih.gov/111/" }] ∧
    lookupVal (search_papers (to_dict { newArticleState "A10" "k" "2024-06-01" with
        phase := .PAPER_SEARCHING, slack_channel_id := "C10",
        outline_text := some "o" }) (.ok "hypertension review") ["111"] (some 5)
        [{ pmidText := some "111", titleText := some "T", absTexts := [some "A"] }] 7 "CFG").doc
        "paper_candidates"
      = some (.dictList [[("pmid", "111"), ("title", "T"), ("abstract", "A"),
          ("url", "https://pubmed.ncbi.nlm.nih.gov/111/")]]) :=
  ⟨by decide, by decide,
   (c10_search_candidates_invariant
      { newArticleState "A10" "k" "2024-06-01" with
          phase := .PAPER_SEARCHING, slack_channel_id := "C10", outline_text := some "o" }
      (by decide) rfl "hypertension review" ["111"] (some 5)
      [{ pmidText := some "111", titleText := some "T", absTexts := [some "A"] }]
      [{ pmid := "111", title := "T", abstract := "A",
         url := "https://pubmed.ncbi.nlm.nih.gov/111/" }]
      (by decide) 7 "CFG").1⟩


theorem ensure_terms_fst_posts (s : WpSite) (c t : List String) :
    (ensure_terms s c t).1.posts = s.posts := rfl

theorem ensure_terms_fst_nextPostId (s : WpSite) (c t : List String) :
    (ensure_terms s c t).1.nextPostId = s.nextPostId := rfl

theorem wp_link_ne_empty (pid : Int) :
    (("https://wp.example/?p=" : String) ++ toString pid) ≠ "" := by
  intro hcontra
  have hd := congrArg String.data hcontra
  rw [String.data_append] at hd
  have hempty : ("" : String).data = [] := by decide
  rw [hempty] at hd
  have h2 : ("https://wp.example/?p=" : String).data ≠ [] := by decide
  exact h2 (List.append_eq_nil.mp hd).1

theorem strContains_marker (pre aid post : String) :
    strContains (pre ++ wpMarker aid ++ post) (wpSearchText aid) = true := by
  have hlit : ("<!-- SEO_WORKFLOW_ARTICLE_ID=" : String).data
      = ("<!-- " : String).data ++ ("SEO_WORKFLOW_ARTICLE_ID=" : String).data := by decide
  have hdata : (pre ++ wpMarker aid ++ post).data
      = (pre.data ++ ("<!-- " : String).data)
        ++ ((("SEO_WORKFLOW_ARTICLE_ID=" : String).data ++ aid.data)
            ++ ((" -->" : String).data ++ post.data)) := by
    simp [wpMarker, String.data_append, hlit]
  have hpat : (wpSearchText aid).data
      = ("SEO_WORKFLOW_ARTICLE_ID=" : String).data ++ aid.data := by
    simp [wpSearchText, String.data_append]
  rw [strContains, hdata, hpat]
  exact listInf_append_self _ _ _

theorem find_existing_none (s : WpSite) (aid : String)
    (haid1 : pyStrip aid = aid) (haid2 : aid ≠ "")
    (hOld : ∀ po ∈ s.posts, strContains po.content (wpSearchText aid) = false) :
    find_existing_by_article_id s aid = Option.none := by
  unfold find_existing_by_article_id
  rw [haid1]
  have hb : (aid == "") = false := beq_eq_false_iff_ne.mpr haid2
  have hnil : s.posts.filter (fun p => strContains p.content (wpSearchText aid)) = [] :=
    List.filter_eq_nil_iff.mpr (fun p hp => by simp [hOld p hp])
  simp [hb, hnil]

theorem find_existing_last_marked (s : WpSite) (aid : String)
    (haid1 : pyStrip aid = aid) (haid2 : aid ≠ "")
    (old : List WpPost) (np : WpPost)
    (hposts : s.posts = old ++ [np])
    (hOld : ∀ po ∈ old, strContains po.content (wpSearchText aid) = false)
    (hnp : strContains np.content (wpSearchText aid) = true) :
    find_existing_by_article_id s aid = some np := by
  unfold find_existing_by_article_id
  rw [haid1]
  have hb : (aid == "") = false := beq_eq_false_iff_ne.mpr haid2
  have hnil : old.filter (fun p => strContains p.content (wpSearchText aid)) = [] :=
    List.filter_eq_nil_iff.mpr (fun p hp => by simp [hOld p hp])
  rw [hposts]
  simp [hb, List.filter_append, hnil, hnp, List.find?]

theorem publish_post_ensure (site : WpSite) (cats tags : List String)
    (content aid : String) (h0 : site.nextPostId ≠ 0) :
    publish_post (ensure_terms site cats tags).1 content aid
      = ({ (ensure_terms site cats tags).1 with
             posts := site.posts ++
               [{ id := site.nextPostId,
                  link := "https://wp.example/?p=" ++ toString site.nextPostId,
                  content := pyStrip content ++ "\n\n" ++ wpMarker aid ++ "\n" }],
             nextPostId := site.nextPostId + 1 },
         .ok (site.nextPostId, "https://wp.example/?p=" ++ toString site.nextPostId)) := by
  unfold publish_post
  have hb0 : ((ensure_terms site cats tags).1.nextPostId == 0) = false := by
    rw [ensure_terms_fst_nextPostId]
    exact beq_eq_false_iff_ne.mpr h0
  have hbl : ((("https://wp.example/?p=" : String)
      ++ toString (ensure_terms site cats tags).1.nextPostId) == "") = false :=
    beq_eq_false_iff_ne.mpr (wp_link_ne_empty _)
  simp [hb0, hbl, ensure_terms_fst_posts, ensure_terms_fst_nextPostId]
  exact ⟨h0, wp_link_ne_empty site.nextPostId⟩

set_option maxHeartbeats 3200000 in
/-- C8: publish is idempotent.  Starting from a record in `PUBLISHING`
with a selected paper, on a WordPress site that has no post carrying this
article's durable marker, the first `publish_article` run creates exactly
one post (embedding the marker) and stores its id/url with phase
`PUBLISHED`; a second run — with arbitrary backend responses — finds that
post by its marker, creates no second post (the site is untouched),
re-stores the same id/url, and leaves the phase `PUBLISHED`. -/
theorem c8_publish_idempotent
    (st : ArticleState) (hst : st.normalizedB = true) (hph : st.phase = .PUBLISHING)
    (aid : String) (haid1 : pyStrip aid = aid) (haid2 : aid ≠ "")
    (site : WpSite) (hpid : site.nextPostId ≠ 0)
    (hOld : ∀ po ∈ site.posts, strContains po.content (wpSearchText aid) = false)
    (sel : SDict) (hfind : findSelectedCandidate st.paper_candidates st.selected_pmid = some sel)
    (ti sl : String) (cats tags : List String) (now now2 : Int) (ch : String)
    (ts2 : Except PyErr (String × String)) (ct2 : Except PyErr (List String × List String)) :
    (let r1 := publish_article aid (to_dict st) site (.ok (ti, sl)) (.ok (cats, tags)) now ch;
     let r2 := publish_article aid r1.1.doc r1.2 ts2 ct2 now2 ch;
     r2.2 = r1.2 ∧
     r1.2.posts = site.posts ++
       [{ id := site.nextPostId,
          link := "https://wp.example/?p=" ++ toString site.nextPostId,
          content := pyStrip (match st.body_text with | some b => b | Option.none => "") ++ "\n\n" ++ wpMarker aid ++ "\n" }] ∧
     lookupVal r1.1.doc "wp_post_id" = some (.int site.nextPostId) ∧
     lookupVal r2.1.doc "wp_post_id" = some (.int site.nextPostId) ∧
     lookupVal r1.1.doc "wp_post_url"
        = some (.str ("https://wp.example/?p=" ++ toString site.nextPostId)) ∧
     lookupVal r2.1.doc "wp_post_url"
        = some (.str ("https://wp.example/?p=" ++ toString site.nextPostId)) ∧
     lookupVal r2.1.doc "phase" = some (.str "PUBLISHED") ∧
     r2.1.spawned = [] ∧
     r2.1.posts = [⟨st.slack_channel_id, "投稿が完了しました。", Option.none⟩]) := by
  have hload0 : from_dict (to_dict st) = .ok st := from_dict_to_dict st hst
  have hfe1 : find_existing_by_article_id site aid = Option.none :=
    find_existing_none site aid haid1 haid2 hOld
  have hg0 : getVal (to_dict st) "phase" = .str st.phase.value := by
    simp [to_dict, getVal, lookupVal, List.find?]
  have hcur1 : asStrOrEmpty (getVal (to_dict st) "phase") ≠ Phase.PUBLISHED.value := by
    rw [hg0, hph]; decide
  have hload1 := from_dict_publish_write_any (to_dict st) st hload0 site.nextPostId
    ("https://wp.example/?p=" ++ toString site.nextPostId) ti sl cats tags now hcur1
  have h1 : publish_article aid (to_dict st) site (.ok (ti, sl)) (.ok (cats, tags)) now ch
      = ({ doc := update_article_fields (to_dict st)
             [("wp_post_id", .int site.nextPostId),
              ("wp_post_url", .str ("https://wp.example/?p=" ++ toString site.nextPostId)),
              ("wp_title", .str ti), ("wp_slug", .str sl),
              ("wp_categories", .strList cats), ("wp_tags", .strList tags)]
             (some .PUBLISHED) true now,
           posts := [⟨st.slack_channel_id, "投稿が完了しました。", Option.none⟩],
           spawned := [] },
         { (ensure_terms site cats tags).1 with
             posts := site.posts ++
               [{ id := site.nextPostId,
                  link := "https://wp.example/?p=" ++ toString site.nextPostId,
                  content := pyStrip (match st.body_text with | some b => b | Option.none => "") ++ "\n\n"
                    ++ wpMarker aid ++ "\n" }],
             nextPostId := site.nextPostId + 1 }) := by
    unfold publish_article
    rw [hload0]
    show publish_articleBody aid (to_dict st) st site (.ok (ti, sl)) (.ok (cats, tags)) now ch = _
    unfold publish_articleBody
    rw [hfe1]
    dsimp only
    rw [hfind]
    dsimp only
    rw [publish_post_ensure site cats tags _ aid hpid]
    dsimp only
    rw [hload1]
  have hnp : strContains
      (pyStrip (match st.body_text with | some b => b | Option.none => "") ++ "\n\n" ++ wpMarker aid ++ "\n") (wpSearchText aid)
        = true :=
    strContains_marker (pyStrip (match st.body_text with | some b => b | Option.none => "") ++ "\n\n") aid "\n"
  have hfe2 : find_existing_by_article_id
      ({ (ensure_terms site cats tags).1 with
           posts := site.posts ++
             [{ id := site.nextPostId,
                link := "https://wp.example/?p=" ++ toString site.nextPostId,
                content := pyStrip (match st.body_text with | some b => b | Option.none => "") ++ "\n\n"
                  ++ wpMarker aid ++ "\n" }],
           nextPostId := site.nextPostId + 1 }) aid
      = some { id := site.nextPostId,
               link := "https://wp.example/?p=" ++ toString site.nextPostId,
               content := pyStrip (match st.body_text with | some b => b | Option.none => "") ++ "\n\n"
                 ++ wpMarker aid ++ "\n" } :=
    find_existing_last_marked _ aid haid1 haid2 site.posts _ rfl hOld hnp
  have hcur2 : asStrOrEmpty (getVal (update_article_fields (to_dict st)
      [("wp_post_id", .int site.nextPostId),
       ("wp_post_url", .str ("https://wp.example/?p=" ++ toString site.nextPostId)),
       ("wp_title", .str ti), ("wp_slug", .str sl),
       ("wp_categories", .strList cats), ("wp_tags", .strList tags)]
      (some .PUBLISHED) true now) "phase") = Phase.PUBLISHED.value := by
    simp [update_article_fields, getVal, lookupVal_applyPatch, patchFind, patchFind_append,
      to_dict, lookupVal, List.find?, bne, hph, Phase.value]
  have hload2 := from_dict_adopt_write_any _ _ hload1 site.nextPostId
    ("https://wp.example/?p=" ++ toString site.nextPostId) now2 hcur2
  have h2 : publish_article aid
      (update_article_fields (to_dict st)
        [("wp_post_id", .int site.nextPostId),
         ("wp_post_url", .str ("https://wp.example/?p=" ++ toString site.nextPostId)),
         ("wp_title", .str ti), ("wp_slug", .str sl),
         ("wp_categories", .strList cats), ("wp_tags", .strList tags)]
        (some .PUBLISHED) true now)
      ({ (ensure_terms site cats tags).1 with
           posts := site.posts ++
             [{ id := site.nextPostId,
                link := "https://wp.example/?p=" ++ toString site.nextPostId,
                content := pyStrip (match st.body_text with | some b => b | Option.none => "") ++ "\n\n"
                  ++ wpMarker aid ++ "\n" }],
           nextPostId := site.nextPostId + 1 })
      ts2 ct2 now2 ch
      = ({ doc := update_article_fields
             (update_article_fields (to_dict st)
               [("wp_post_id", .int site.nextPostId),
                ("wp_post_url", .str ("https://wp.example/?p=" ++ toString site.nextPostId)),
                ("wp_title", .str ti), ("wp_slug", .str sl),
                ("wp_categories", .strList cats), ("wp_tags", .strList tags)]
               (some .PUBLISHED) true now)
             [("wp_post_id", .int site.nextPostId),
              ("wp_post_url", .str ("https://wp.example/?p=" ++ toString site.nextPostId))]
             (some .PUBLISHED) true now2,
           posts := [⟨st.slack_channel_id, "投稿が完了しました。", Option.none⟩],
           spawned := [] },
         { (ensure_terms site cats tags).1 with
             posts := site.posts ++
               [{ id := site.nextPostId,
                  link := "https://wp.example/?p=" ++ toString site.nextPostId,
                  content := pyStrip (match st.body_text with | some b => b | Option.none => "") ++ "\n\n"
                    ++ wpMarker aid ++ "\n" }],
             nextPostId := site.nextPostId + 1 }) := by
    unfold publish_article
    rw [hload1]
    show publish_articleBody aid _ _ _ ts2 ct2 now2 ch = _
    unfold publish_articleBody
    rw [hfe2]
    dsimp only
    rw [hload2]
  dsimp only
  rw [h1]
  dsimp only
  rw [h2]
  dsimp only
  refine ⟨rfl, rfl, ?_, ?_, ?_, ?_, ?_, rfl, rfl⟩
  · simp [update_article_fields, lookupVal_applyPatch, patchFind, patchFind_append,
      to_dict, lookupVal, getVal, List.find?, bne, hph, Phase.value]
  · simp [update_article_fields, lookupVal_applyPatch, patchFind, patchFind_append,
      to_dict, lookupVal, getVal, List.find?, bne, hph, Phase.value]
  · simp [update_article_fields, lookupVal_applyPatch, patchFind, patchFind_append,
      to_dict, lookupVal, getVal, List.find?, bne, hph, Phase.value]
  · simp [update_article_fields, lookupVal_applyPatch, patchFind, patchFind_append,
      to_dict, lookupVal, getVal, List.find?, bne, hph, Phase.value]
  · simp [update_article_fields, lookupVal_applyPatch, patchFind, patchFind_append,
      to_dict, lookupVal, getVal, List.find?, bne, hph, Phase.value]

/-- Witness for C8 at a concrete record, site and backends: the second
run is handed failing backend responses and still succeeds by adopting
the marker-carrying post of the first run. -/
theorem c8_witness :
    ({ newArticleState "A8" "k" "2024-06-01" with
         phase := .PUBLISHING, slack_channel_id := "C8", body_text := some "B",
         paper_candidates := [[("pmid", "111"), ("title", "t"), ("abstract", "a"),
           ("url", "u")]],
         selected_pmid := some "111" } : ArticleState).normalizedB = true ∧
    findSelectedCandidate ({ newArticleState "A8" "k" "2024-06-01" with
         phase := .PUBLISHING, slack_channel_id := "C8", body_text := some "B",
         paper_candidates := [[("pmid", "111"), ("title", "t"), ("abstract", "a"),
           ("url", "u")]],
         selected_pmid := some "111" } : ArticleState).paper_candidates (some "111")
      = some [("pmid", "111"), ("title", "t"), ("abstract", "a"), ("url", "u")] ∧
    (let st : ArticleState := { newArticleState "A8" "k" "2024-06-01" with
         phase := .PUBLISHING, slack_channel_id := "C8", body_text := some "B",
         paper_candidates := [[("pmid", "111"), ("title", "t"), ("abstract", "a"),
           ("url", "u")]],
         selected_pmid := some "111" };
     let site : WpSite := { posts := [], cats := [], tagTerms := [],
                            nextTermId := 1, nextPostId := 1 };
     let r1 := publish_article "A8" (to_dict st) site (.ok ("T", "slug"))
        (.ok (["c1"], ["t1"])) 5 "CFG";
     let r2 := publish_article "A8" r1.1.doc r1.2 (.error (.openaiError "boom"))
        (.error (.openaiError "boom2")) 9 "CFG";
     r2.2 = r1.2 ∧
     r1.2.posts = site.posts ++
       [{ id := site.nextPostId,
          link := "https://wp.example/?p=" ++ toString site.nextPostId,
          content := pyStrip (match st.body_text with | some b => b | Option.none => "") ++ "\n\n" ++ wpMarker "A8" ++ "\n" }] ∧
     lookupVal r1.1.doc "wp_post_id" = some (.int site.nextPostId) ∧
     lookupVal r2.1.doc "wp_post_id" = some (.int site.nextPostId) ∧
     lookupVal r1.1.doc "wp_post_url"
        = some (.str ("https://wp.example/?p=" ++ toString site.nextPostId)) ∧
     lookupVal r2.1.doc "wp_post_url"
        = some (.str ("https://wp.example/?p=" ++ toString site.nextPostId)) ∧
     lookupVal r2.1.doc "phase" = some (.str "PUBLISHED") ∧
     r2.1.spawned = [] ∧
     r2.1.posts = [⟨st.slack_channel_id, "投稿が完了しました。", Option.none⟩]) :=
  ⟨by decide, by decide,
   c8_publish_idempotent
     { newArticleState "A8" "k" "2024-06-01" with
         phase := .PUBLISHING, slack_channel_id := "C8", body_text := some "B",
         paper_candidates := [[("pmid", "111"), ("title", "t"), ("abstract", "a"),
           ("url", "u")]],
         selected_pmid := some "111" }
     (by decide) rfl "A8" (by decide) (by decide)
     { posts := [], cats := [], tagTerms := [], nextTermId := 1, nextPostId := 1 }
     (by decide) (by decide)
     [("pmid", "111"), ("title", "t"), ("abstract", "a"), ("url", "u")] (by decide)
     "T" "slug" ["c1"] ["t1"] 5 9 "CFG"
     (.error (.openaiError "boom")) (.error (.openaiError "boom2"))⟩

end SeoWf
